import Mathlib

/-!
# Verification of the spiderweb endpoint pipeline

Shallow embedding of the `endpoint` package of `wspowell/spiderweb`:
the ETag conditional-request validator (`endpoint/etag.go`), the endpoint
executor `Endpoint.Execute` (two revisions of `endpoint.go` are present in
the repository snapshot; both are embedded below as `ExecuteV1` and
`ExecuteV2`), and the mime-type registry handling of `NewEndpoint`.

Conventions:
* Go byte slices (`[]byte`) carrying binary data are `List Nat`
  (each element a byte value); byte slices holding header text are `String`.
* A `nil`/absent header is the empty string, matching the `len(x) == 0`
  checks in the source.
* Go `int` is `Int`.
* The SHA-256 digest (from Go's `crypto/sha256`, external to this
  repository) is abstracted as a `digest : List Nat → List Nat` parameter;
  no claim depends on the digest's concrete values.
-/

namespace Spiderweb

/-! ## Go string primitives used by etag.go -/

/-- Go `unicode.IsSpace` restricted to the ASCII range (HTTP header values
are ASCII, so this is the behavior `bytes.TrimSpace` exercises here). -/
def goIsSpace (c : Char) : Bool :=
  c == ' ' || c == '\t' || c == '\n' || c == Char.ofNat 11 ||
    c == Char.ofNat 12 || c == Char.ofNat 13

/-- Go `bytes.TrimSpace`: drop leading and trailing whitespace. -/
def goTrimSpace (s : String) : String :=
  ⟨((s.data.dropWhile goIsSpace).reverse.dropWhile goIsSpace).reverse⟩

/-- `goLeads pat l` is true when `pat` occurs at the start of `l`. -/
def goLeads : List Char → List Char → Bool
  | [], _ => true
  | _ :: _, [] => false
  | a :: as, b :: bs => a == b && goLeads as bs

/-- Helper for `goContains`: does `pat` occur anywhere in the list? -/
def goContainsAux (pat : List Char) : List Char → Bool
  | [] => pat.isEmpty
  | c :: rest => goLeads pat (c :: rest) || goContainsAux pat rest

/-- Go `bytes.Contains(s, pat)`: substring containment. -/
def goContains (s pat : String) : Bool :=
  goContainsAux pat.data s.data

/-- Split a character list at every occurrence of `sep`, keeping empty
pieces — the behavior of Go `bytes.Split` for a one-byte separator. -/
def splitOnChar (sep : Char) : List Char → List (List Char)
  | [] => [[]]
  | c :: rest =>
      if c == sep then [] :: splitOnChar sep rest
      else
        match splitOnChar sep rest with
        | [] => [[c]]
        | h :: t => (c :: h) :: t

/-- Go `bytes.Split(s, comma)` (etag.go always splits on `","`). -/
def goSplit (s : String) (sep : Char) : List String :=
  (splitOnChar sep s.data).map (fun l => ⟨l⟩)

/-- One lowercase hex digit, as produced by Go `encoding/hex`. -/
def hexDigit (n : Nat) : Char :=
  if n < 10 then Char.ofNat (48 + n) else Char.ofNat (87 + n % 16)

/-- Go `hex.EncodeToString`: two lowercase hex digits per byte, in order. -/
def hexEncode (bs : List Nat) : String :=
  ⟨bs.foldr (fun b acc => hexDigit (b / 16 % 16) :: hexDigit (b % 16) :: acc) []⟩

/-! ## Requester state

`Requester` is the transport abstraction consumed by the endpoint package
(read-only request facts, write-once response mutation).  The parts the
embedded code reads and writes are collected in one record; response
headers are an association list written through `mapSet` (Go map
assignment semantics: later writes override earlier ones). -/

/-- Go map assignment `m[k] = v` on an association list: overwrite the
binding for `k` if present, else append it. -/
def mapSet {α : Type} : List (String × α) → String → α → List (String × α)
  | [], k, v => [(k, v)]
  | (k', v') :: rest, k, v =>
      if k' = k then (k, v) :: rest else (k', v') :: mapSet rest k v

/-- Go map read `m[k]` on an association list. -/
def mapGet {α : Type} : List (String × α) → String → Option α
  | [], _ => none
  | (k', v') :: rest, k => if k' = k then some v' else mapGet rest k

/-- Per-request requester state: the request facts the endpoint code reads
and the response fields it writes. -/
structure RequesterState where
  contentType : String := ""
  accept : String := ""
  requestBody : List Nat := []
  ifNoneMatch : String := ""
  ifMatch : String := ""
  cacheControl : String := ""
  requestId : String := ""
  responseContentType : Option String := none
  responseHeaders : List (String × String) := []
  deriving Repr, DecidableEq

/-- `Requester.SetResponseHeader`. -/
def setResponseHeader (r : RequesterState) (k v : String) : RequesterState :=
  { r with responseHeaders := mapSet r.responseHeaders k v }

/-- `Requester.SetResponseContentType`. -/
def setResponseContentType (r : RequesterState) (ct : String) : RequesterState :=
  { r with responseContentType := some ct }

/-! ## ETag validator (endpoint/etag.go) -/

/-- etag.go: `noCache = "no-cache"`. -/
def noCache : String := "no-cache"

/-- etag.go: `comma = ","`. -/
def comma : Char := ','

/-- etag.go: `anything = "*"`. -/
def anything : String := "*"

/-- The `ETag` response-header name (`httpheader.ETag`). -/
def headerETag : String := "ETag"

/-- The `Cache-Control` response-header name (`httpheader.CacheControl`). -/
def headerCacheControl : String := "Cache-Control"

/-- etag.go `checkEtagNoneMatch`: true when some token equals `"*"` or
equals the computed fingerprint. -/
def checkEtagNoneMatch (etagsToNoneMatch : List String) (eTagValue : String) : Bool :=
  etagsToNoneMatch.any (fun etagToNoneMatch =>
    etagToNoneMatch == anything || etagToNoneMatch == eTagValue)

/-- etag.go `checkEtagMatch`: the loop returns `false` as soon as a token
equals `"*"` or equals the fingerprint, and `true` only when no token did. -/
def checkEtagMatch (etagsToMatch : List String) (eTagValue : String) : Bool :=
  etagsToMatch.all (fun etagToMatch =>
    !(etagToMatch == anything) && !(etagToMatch == eTagValue))

/-- etag.go `trimTags`: trim each token. -/
def trimTags (tags : List String) : List String :=
  tags.map goTrimSpace

/-- etag.go `isCacheFresh`: If-None-Match takes precedence when present;
otherwise If-Match is checked.  Returns the candidate status (304 or 412)
and whether the cache is fresh. -/
def isCacheFresh (ifNoneMatch ifMatch eTagValue : String) : Int × Bool :=
  if ifNoneMatch ≠ "" then
    (304, checkEtagNoneMatch (trimTags (goSplit ifNoneMatch comma)) eTagValue)
  else
    (412, checkEtagMatch (trimTags (goSplit ifMatch comma)) eTagValue)

/-- etag.go line 47-48: the content fingerprint
`strconv.Itoa(len(responseBody)) + "-" + hex.EncodeToString(sha256.Sum256(responseBody))`. -/
def eTagFingerprint (digest : List Nat → List Nat) (responseBody : List Nat) : String :=
  toString responseBody.length ++ "-" ++ hexEncode (digest responseBody)

/-- etag.go lines 38-41: the pass-through ("skip") condition of
`HandleETag`. -/
def skipETagCheck (httpStatus : Int) (responseBody : List Nat) (r : RequesterState) : Bool :=
  !(decide (200 ≤ httpStatus) && decide (httpStatus < 300)) ||
    responseBody.length == 0 ||
    goContains r.cacheControl noCache ||
    (r.ifNoneMatch == "" && r.ifMatch == "")

/-- Result of `HandleETag`: the (possibly) mutated requester plus the
returned status and body. -/
structure ETagResult where
  requester : RequesterState
  httpStatus : Int
  responseBody : List Nat
  deriving Repr, DecidableEq

/-- etag.go `HandleETag`, with the SHA-256 digest abstracted as `digest`. -/
def HandleETag (digest : List Nat → List Nat) (requester : RequesterState)
    (maxAgeSeconds : Int) (httpStatus : Int) (responseBody : List Nat) : ETagResult :=
  if skipETagCheck httpStatus responseBody requester then
    ⟨requester, httpStatus, responseBody⟩
  else
    let eTagValue := eTagFingerprint digest responseBody
    let requester1 := setResponseHeader requester headerETag eTagValue
    let requester2 :=
      if maxAgeSeconds != 0 then
        setResponseHeader requester1 headerCacheControl
          ("max-age=" ++ toString maxAgeSeconds)
      else requester1
    match isCacheFresh requester.ifNoneMatch requester.ifMatch eTagValue with
    | (newHttpStatus, true) => ⟨requester2, newHttpStatus, []⟩
    | (_, false) => ⟨requester2, httpStatus, responseBody⟩

/-- The requester state produced by the non-skip branch of `HandleETag`
before the freshness check: ETag set, Cache-Control set when non-zero. -/
def etagHeaders (digest : List Nat → List Nat) (r : RequesterState)
    (maxAgeSeconds : Int) (body : List Nat) : RequesterState :=
  if maxAgeSeconds != 0 then
    setResponseHeader (setResponseHeader r headerETag (eTagFingerprint digest body))
      headerCacheControl ("max-age=" ++ toString maxAgeSeconds)
  else
    setResponseHeader r headerETag (eTagFingerprint digest body)

/-! ## Claims about the ETag validator -/

/-! ## NewEndpoint mime-registry merge (part_002 lines 76-87)

When `Config.MimeTypeHandlers` is non-nil, `NewEndpoint` starts from the
full default registry `NewMimeTypeHandlers()` and copies every caller
entry on top of it.  `NewMimeTypeHandlers` itself (the default registry)
is code of this repository that is not under `src/`; its contents are
abstracted as the `defaults` parameter, which no claim inspects. -/

/-- The registry built by `NewEndpoint` for a non-nil caller map:
`mimeHandlers := NewMimeTypeHandlers(); for mime, handler := range config.MimeTypeHandlers { mimeHandlers[mime] = handler }`.
Go map iteration order is arbitrary; the caller map is a key-distinct
association list, and the merge result is order-independent for such
lists. -/
def newEndpointMimeTypeHandlers {α : Type} (defaults custom : List (String × α)) :
    List (String × α) :=
  custom.foldl (fun acc p => mapSet acc p.1 p.2) defaults

/-! ## The endpoint executor

Two revisions of `endpoint.go` are present in the repository snapshot:
`src/unnamed/part_001` (the older revision, fasthttp-based `Context`,
matching `endpoint/context.go` and `endpoint/endpoint_test.go`) and
`src/unnamed/part_002` (the newer revision, `Requester`-based, the one
that calls `HandleETag`).  Both `Execute` functions are embedded:
`ExecuteV1` and `ExecuteV2`.

User-supplied collaborators (auth, validators, the handler, the codecs,
the error handler) are interface values in Go; they are modelled as
function-valued fields of an environment record.  Any collaborator call
can panic, which is modelled by `GoVal`. -/

/-- Result of a call into Go collaborator code: a value or a panic. -/
inductive GoVal (α : Type) where
  | ret (a : α)
  | panicked (payload : String)
  deriving Repr, DecidableEq

/-- Error values flowing through the endpoint package.  Sentinel errors
(`ErrInternalServerError`, `ErrorPanic`, ...) are declared in repository
files outside `src/`; they are fixed distinct constants, modelled as
constructors.  `wrap a b` is `errors.Wrap(a, b)` (external library),
kept purely structural. -/
inductive Err where
  | errorPanic
  | internalServerError
  | requestTimeout
  | badRequest
  | invalidMimeType
  | requestBodyUnmarshalFailure
  | responseBodyMarshalFailure
  | responseBodyNull
  | parseFailure
  | nilErr
  | msg (s : String)
  | recovered (payload : String)
  | wrap (a b : Err)
  deriving Repr, DecidableEq

/-- Stand-in for `fmt.Sprintf` rendering of an error (`%v` / `%#v` / `%s`
come from Go's fmt and the external errors library); the claims never
depend on the rendered text, only on which error value is rendered. -/
def errString : Err → String
  | .errorPanic => "ErrorPanic"
  | .internalServerError => "internal server error"
  | .requestTimeout => "request timeout"
  | .badRequest => "bad request"
  | .invalidMimeType => "invalid mime type"
  | .requestBodyUnmarshalFailure => "failed to unmarshal request body"
  | .responseBodyMarshalFailure => "failed to marshal response body"
  | .responseBodyNull => "response body is null"
  | .parseFailure => "Internal server error"
  | .nilErr => "<nil>"
  | .msg s => s
  | .recovered p => p
  | .wrap a b => errString a ++ ": " ++ errString b

/-- `[]byte(s)` for a rendered error string. -/
def strBytes (s : String) : List Nat :=
  s.data.map Char.toNat

/-- part_001 line 28 / part_002 lines 29-34: the literal `"null"` bytes. -/
def nullBytes : List Nat :=
  strBytes "null"

/-- Opaque stand-in for the `any` payload produced by
`ErrorHandler.HandleError`. -/
structure ErrStruct where
  tag : Nat
  deriving Repr, DecidableEq

/-- Opaque stand-in for the handler instance's response-body object. -/
structure RespObj where
  tag : Nat
  deriving Repr, DecidableEq

/-- Argument of a codec `Marshal` call (`interface{}` in Go): either the
handler's response object or an error payload. -/
inductive MarshalArg where
  | respObj (o : RespObj)
  | errObj (e : ErrStruct)
  deriving Repr, DecidableEq

/-- A mime-type codec: `MimeTypeHandler` with its `Marshal`/`Unmarshal`
pair.  `unmarshal` returns the decode error; the decoded object itself is
absorbed into the environment's `handle` value. -/
structure MimeTypeHandler where
  mimeType : String
  marshal : MarshalArg → GoVal (List Nat × Option Err)
  unmarshal : List Nat → GoVal (Option Err)

/-- Modelled from the spec: `MimeTypeHandlers.Get(contentType, allowed)` —
the registry implementation is code of this repository not under `src/`.
Spec §4.2: returns a codec or a not-found signal; exact string match only;
each handler restricts negotiation to its subset of the globally
registered mime types (the registry is the superset). -/
def mimeTypeHandlersGet (registry : List (String × MimeTypeHandler))
    (contentType : String) (allowed : List String) : Option MimeTypeHandler :=
  if allowed.contains contentType then mapGet registry contentType else none

/-- `mimeTypeTextPlain`, the plain-text fallback content type used by
`processErrorResponse` (declared in a repository file outside `src/`). -/
def mimeTypeTextPlain : String := "text/plain"

/-- Pipeline phases, recorded in an execution trace so that theorems can
state which phases ran. -/
inductive Phase where
  | negotiateRequestMime
  | negotiateResponseMime
  | bindPhase
  | authPhase
  | unmarshalPhase
  | validateRequestPhase
  | handlePhase
  | marshalPhase
  | validateResponsePhase
  | etagPhase
  deriving Repr, DecidableEq

/-- Compiled handler metadata (`handlerTypeData`). -/
structure HandlerTypeData where
  hasRequestBody : Bool := false
  hasResponseBody : Bool := false
  requestMimeTypes : List String := []
  responseMimeTypes : List String := []
  shouldValidateRequest : Bool := false
  shouldValidateResponse : Bool := false
  hasAuth : Bool := false
  authIsAuthorizer : Bool := true
  eTagEnabled : Bool := false
  maxAgeSeconds : Int := 0

/-- Environment of one `ExecuteV2` run: the endpoint configuration plus
the per-request behavior of every collaborator.  `shouldContinue i` is the
result of the i-th `ShouldContinue(ctx)` poll (part_002 polls at lines 311
and 331). -/
structure EnvV2 where
  handlerData : HandlerTypeData
  mimeTypeHandlers : List (String × MimeTypeHandler) := []
  hasRequestValidator : Bool := false
  hasResponseValidator : Bool := false
  validateRequest : List Nat → GoVal (Int × Option Err) := fun _ => .ret (200, none)
  validateResponse : Int → List Nat → GoVal (Int × Option Err) := fun s _ => .ret (s, none)
  handleError : Int → Err → Int × ErrStruct := fun s _ => (s, ⟨0⟩)
  authorization : GoVal (Int × Option Err) := .ret (200, none)
  setResources : GoVal (Option Err) := .ret none
  setPathParameters : GoVal (Option Err) := .ret none
  setQueryParameters : GoVal (Option Err) := .ret none
  handle : GoVal ((Int × Option Err) × RespObj) := .ret ((200, none), ⟨0⟩)
  shouldContinue : Nat → Bool := fun _ => true
  digest : List Nat → List Nat := fun _ => []

/-- Outcome of the `Execute` pipeline body (part_002 lines 119-376) before
the deferred recover fires: a returned (status, body) with the final
requester state, or an uncaught panic together with the value the
`responseMimeType` variable had when the panic was raised (the deferred
recover closure reads that variable). -/
inductive InnerOut where
  | done (httpStatus : Int) (responseBody : List Nat) (requester : RequesterState)
      (trace : List Phase)
  | panicked (payload : String) (responseMimeType : Option MimeTypeHandler)
      (requester : RequesterState) (trace : List Phase)

/-- Outcome of `processErrorResponse`: the rendered error response, or a
panic raised by the error-payload codec. -/
inductive ErrOut where
  | ok (httpStatus : Int) (responseBody : List Nat) (requester : RequesterState)
  | panicked (payload : String) (requester : RequesterState)

/-- part_002 `processErrorResponse` (lines 378-419): with no negotiated
response mime type, fall back to a plain-text rendering; otherwise map the
(status, error) pair through `ErrorHandler.HandleError` and marshal the
resulting payload, degrading to plain text with status 500 if that marshal
fails. -/
def processErrorResponseV2 (handleError : Int → Err → Int × ErrStruct)
    (requester : RequesterState) (responseMimeType : Option MimeTypeHandler)
    (httpStatus : Int) (err : Err) : ErrOut :=
  match responseMimeType with
  | none =>
      .ok httpStatus (strBytes (errString err))
        (setResponseContentType requester mimeTypeTextPlain)
  | some m =>
      let mapped := handleError httpStatus err
      match m.marshal (.errObj mapped.2) with
      | .panicked p => .panicked p requester
      | .ret (responseBody, none) => .ok mapped.1 responseBody requester
      | .ret (_, some marshalErr) =>
          .ok 500 (strBytes (errString (.wrap marshalErr .internalServerError)))
            (setResponseContentType requester mimeTypeTextPlain)

/-- Route an in-pipeline failure through `processErrorResponse`
(every early `return self.processErrorResponse(...)` site of part_002). -/
def errDoneV2 (env : EnvV2) (req : RequesterState) (rmt : Option MimeTypeHandler)
    (httpStatus : Int) (err : Err) (trace : List Phase) : InnerOut :=
  match processErrorResponseV2 env.handleError req rmt httpStatus err with
  | .ok s b r => .done s b r trace
  | .panicked p r => .panicked p rmt r trace

/-- part_002 lines 248-272: the authentication block.  `some out` is an
early exit (auth failure, panic, or a non-`Authorizer` auth object);
`none` means the pipeline continues. -/
def authStepV2 (env : EnvV2) (rm : MimeTypeHandler) (req : RequesterState)
    (t : List Phase) : Option InnerOut :=
  if env.handlerData.hasAuth then
    if env.handlerData.authIsAuthorizer then
      match env.authorization with
      | .panicked p => some (.panicked p (some rm) req (t ++ [Phase.authPhase]))
      | .ret (s, some e) =>
          some (errDoneV2 env req (some rm) s e (t ++ [Phase.authPhase]))
      | .ret (_, none) => none
    else
      some (errDoneV2 env req (some rm) 500 (.wrap .nilErr .internalServerError) t)
  else none

/-- part_002 lines 274-309: the request-body block (decode plus request
validation).  `some out` is an early exit; `none` continues. -/
def reqBodyStepV2 (env : EnvV2) (rm : MimeTypeHandler)
    (requestMimeType : Option MimeTypeHandler) (req : RequesterState)
    (t : List Phase) : Option InnerOut :=
  if env.handlerData.hasRequestBody then
    match requestMimeType with
    | none => some (.panicked "nil pointer dereference" (some rm) req t)
    | some m =>
      match m.unmarshal req.requestBody with
      | .panicked p => some (.panicked p (some rm) req (t ++ [Phase.unmarshalPhase]))
      | .ret (some e) =>
          some (errDoneV2 env req (some rm) 400 (.wrap e .badRequest)
            (t ++ [Phase.unmarshalPhase]))
      | .ret none =>
        if env.hasRequestValidator && env.handlerData.shouldValidateRequest then
          match env.validateRequest req.requestBody with
          | .panicked p =>
              some (.panicked p (some rm) req
                (t ++ [Phase.unmarshalPhase, Phase.validateRequestPhase]))
          | .ret (s, some f) =>
              some (errDoneV2 env req (some rm) s f
                (t ++ [Phase.unmarshalPhase, Phase.validateRequestPhase]))
          | .ret (_, none) => none
        else none
  else none

/-- part_002 lines 337-347 and 435-457: `getHandlerResponseBody` (marshal
plus null-detection).  `.inl (body, req, t)` continues with the marshalled
body; `.inr out` is an early exit. -/
def respStepV2 (env : EnvV2) (rm : MimeTypeHandler) (respObj : RespObj)
    (req : RequesterState) (t : List Phase) :
    (List Nat × RequesterState × List Phase) ⊕ InnerOut :=
  if env.handlerData.hasResponseBody then
    let req := setResponseContentType req rm.mimeType
    let t := t ++ [Phase.marshalPhase]
    match rm.marshal (.respObj respObj) with
    | .panicked p => .inr (.panicked p (some rm) req t)
    | .ret (_, some e) =>
        .inr (errDoneV2 env req (some rm) 500 (.wrap e .internalServerError) t)
    | .ret (bs, none) =>
        if bs = nullBytes then
          .inr (errDoneV2 env req (some rm) 500 (.wrap .nilErr .internalServerError) t)
        else .inl (bs, req, t)
  else .inl ([], req, t)

/-- part_002 lines 349-362: the response-validation block — the failure
check is made against `validationFailure`, the validator's own return
value.  `.inl (status, t)` continues with the (possibly overwritten)
status; `.inr out` is an early exit. -/
def valStepV2 (env : EnvV2) (rm : MimeTypeHandler) (hs : Int)
    (responseBody : List Nat) (req : RequesterState) (t : List Phase) :
    (Int × List Phase) ⊕ InnerOut :=
  if env.hasResponseValidator && env.handlerData.shouldValidateResponse then
    let t := t ++ [Phase.validateResponsePhase]
    match env.validateResponse hs responseBody with
    | .panicked p => .inr (.panicked p (some rm) req t)
    | .ret (s2, some f) => .inr (errDoneV2 env req (some rm) s2 f t)
    | .ret (s2, none) => .inl (s2, t)
  else .inl (hs, t)

/-- part_002 `Execute`, lines 222-375: everything after response
content-type negotiation succeeded with codec `rm`.  `requestMimeType` is
the request codec negotiated earlier (`none` when the handler declares no
request body). -/
def afterNegotiationV2 (env : EnvV2) (rm : MimeTypeHandler)
    (requestMimeType : Option MimeTypeHandler) (req : RequesterState)
    (t : List Phase) : InnerOut :=
  let hd := env.handlerData
  -- lines 222-246: allocation and binding.
  let t := t ++ [Phase.bindPhase]
  match env.setResources with
  | .panicked p => .panicked p (some rm) req t
  | .ret (some e) => errDoneV2 env req (some rm) 500 (.wrap e .internalServerError) t
  | .ret none =>
  match env.setPathParameters with
  | .panicked p => .panicked p (some rm) req t
  | .ret (some e) => errDoneV2 env req (some rm) 400 (.wrap e .badRequest) t
  | .ret none =>
  match env.setQueryParameters with
  | .panicked p => .panicked p (some rm) req t
  | .ret (some e) => errDoneV2 env req (some rm) 400 (.wrap e .badRequest) t
  | .ret none =>
  -- lines 248-272: authentication.
  match authStepV2 env rm req t with
  | some out => out
  | none =>
  let t := if hd.hasAuth then t ++ [Phase.authPhase] else t
  -- lines 274-309: request body decode and request validation.
  match reqBodyStepV2 env rm requestMimeType req t with
  | some out => out
  | none =>
  let t :=
    if hd.hasRequestBody then
      if env.hasRequestValidator && hd.shouldValidateRequest then
        t ++ [Phase.unmarshalPhase, Phase.validateRequestPhase]
      else t ++ [Phase.unmarshalPhase]
    else t
  -- line 311: cancellation poll before the handler.
  if !env.shouldContinue 0 then
    errDoneV2 env req (some rm) 408 .requestTimeout t
  else
  -- lines 317-329: the user handler.
  match env.handle with
  | .panicked p => .panicked p (some rm) req (t ++ [Phase.handlePhase])
  | .ret ((hs, some e), _) =>
      errDoneV2 env req (some rm) hs e (t ++ [Phase.handlePhase])
  | .ret ((hs, none), respObj) =>
  let t := t ++ [Phase.handlePhase]
  -- line 331: cancellation poll after the handler.
  if !env.shouldContinue 1 then
    errDoneV2 env req (some rm) 408 .requestTimeout t
  else
  -- lines 337-347: `getHandlerResponseBody` (marshal, null detection).
  match respStepV2 env rm respObj req t with
  | .inr out => out
  | .inl (responseBody, req, t) =>
  -- lines 349-362: response validation.
  match valStepV2 env rm hs responseBody req t with
  | .inr out => out
  | .inl (finalStatus, t) =>
  -- lines 369-375: ETag post-processing when enabled.
  if hd.eTagEnabled then
    let r := HandleETag env.digest req hd.maxAgeSeconds finalStatus responseBody
    .done r.httpStatus r.responseBody r.requester (t ++ [Phase.etagPhase])
  else
    .done finalStatus responseBody req t

/-- part_002 `Execute` pipeline body (lines 119-376): request-id header,
content negotiation (the Accept header is always processed, lines
196-220), then the rest of the pipeline. -/
def innerV2 (env : EnvV2) (req0 : RequesterState) : InnerOut :=
  let hd := env.handlerData
  -- line 140: X-Request-Id response header.
  let req := setResponseHeader req0 "X-Request-Id" req0.requestId
  -- lines 174-194: request content type, only if a request body is declared.
  let ctStep : Option MimeTypeHandler ⊕ InnerOut :=
    if hd.hasRequestBody then
      if req.contentType = "" then
        .inr (errDoneV2 env req none 415
          (.wrap .invalidMimeType (.msg "Content-Type MIME type not provided"))
          [Phase.negotiateRequestMime])
      else
        match mimeTypeHandlersGet env.mimeTypeHandlers req.contentType hd.requestMimeTypes with
        | none =>
            .inr (errDoneV2 env req none 415
              (.wrap .invalidMimeType (.msg "Content-Type MIME type not supported"))
              [Phase.negotiateRequestMime])
        | some m => .inl (some m)
    else .inl none
  match ctStep with
  | .inr out => out
  | .inl requestMimeType =>
  let t := if hd.hasRequestBody then [Phase.negotiateRequestMime] else []
  -- lines 196-220: the Accept header is always processed, even when the
  -- handler declares no response body.
  let t := t ++ [Phase.negotiateResponseMime]
  if req.accept = "" then
    errDoneV2 env req none 415
      (.wrap .invalidMimeType (.msg "Accept MIME type not provided")) t
  else
    match mimeTypeHandlersGet env.mimeTypeHandlers req.accept hd.responseMimeTypes with
    | none =>
        errDoneV2 env req none 415
          (.wrap .invalidMimeType (.msg "Accept MIME type not supported")) t
    | some rm =>
        -- line 215: all responses after this must be marshalable to the type.
        afterNegotiationV2 env rm requestMimeType
          (setResponseContentType req rm.mimeType) t

/-- Observable outcome of `Execute`: a returned (status, body) with the
final requester state, or (only possible when the error-payload codec
panics inside the deferred recovery) a panic escaping `Execute`. -/
inductive ExecOut where
  | ret (httpStatus : Int) (responseBody : List Nat) (requester : RequesterState)
      (trace : List Phase)
  | panicEscape (payload : String) (requester : RequesterState) (trace : List Phase)

/-- part_002 `Execute` (lines 119-376): the pipeline body wrapped in its
single deferred recover (lines 131-138), which converts any panic into
`errors.Wrap(errors.Recover(p), ErrInternalServerError)` and renders it
through `processErrorResponse` with status 500. -/
def ExecuteV2 (env : EnvV2) (req0 : RequesterState) : ExecOut :=
  match innerV2 env req0 with
  | .done s b r t => .ret s b r t
  | .panicked p rmt r t =>
      match processErrorResponseV2 env.handleError r rmt 500
          (.wrap (.recovered p) .internalServerError) with
      | .ok s b r' => .ret s b r' t
      | .panicked p2 r' => .panicEscape p2 r' t

/-! ## The older executor revision (src/unnamed/part_001) -/

/-- Environment of one `ExecuteV1` run.  part_001 has no ETag phase and no
binding failures; authentication comes from `Config.Auther`.
`shouldContinue i` is the result of the i-th `ctx.ShouldContinue()` poll
(part_001 polls at lines 174, 195, 212, 248 and 265). -/
structure EnvV1 where
  handlerData : HandlerTypeData
  mimeTypeHandlers : List (String × MimeTypeHandler) := []
  hasAuther : Bool := false
  hasRequestValidator : Bool := false
  hasResponseValidator : Bool := false
  auth : GoVal (Int × Option Err) := .ret (200, none)
  validateRequest : List Nat → GoVal (Int × Option Err) := fun _ => .ret (200, none)
  validateResponse : Int → List Nat → GoVal (Int × Option Err) := fun s _ => .ret (s, none)
  handleError : Int → Err → Int × ErrStruct := fun s _ => (s, ⟨0⟩)
  handle : GoVal ((Int × Option Err) × RespObj) := .ret ((200, none), ⟨0⟩)
  shouldContinue : Nat → Bool := fun _ => true

/-- part_001 `processErrorResponse` (lines 299-335): same shape as the
newer revision, except the marshal-failure fallback replaces the error
with the fixed `InternalCodeErrorParseFailure` error. -/
def processErrorResponseV1 (handleError : Int → Err → Int × ErrStruct)
    (requester : RequesterState) (responseMimeType : Option MimeTypeHandler)
    (httpStatus : Int) (err : Err) : ErrOut :=
  match responseMimeType with
  | none =>
      .ok httpStatus (strBytes (errString err))
        (setResponseContentType requester mimeTypeTextPlain)
  | some m =>
      let mapped := handleError httpStatus err
      match m.marshal (.errObj mapped.2) with
      | .panicked p => .panicked p requester
      | .ret (responseBody, none) => .ok mapped.1 responseBody requester
      | .ret (_, some _) =>
          .ok 500 (strBytes (errString .parseFailure))
            (setResponseContentType requester mimeTypeTextPlain)

/-- Route an in-pipeline failure through part_001's
`processErrorResponse`. -/
def errDoneV1 (env : EnvV1) (req : RequesterState) (rmt : Option MimeTypeHandler)
    (httpStatus : Int) (err : Err) (trace : List Phase) : InnerOut :=
  match processErrorResponseV1 env.handleError req rmt httpStatus err with
  | .ok s b r => .done s b r trace
  | .panicked p r => .panicked p rmt r trace

/-- part_001 `Execute` pipeline body (lines 95-297).  Response content
type is negotiated only when the handler declares a response body (line
153); five cancellation polls; the response-validation failure branch
(line 285) tests the stale `err` variable instead of the validator's
`validationFailure` — translated literally below. -/
def innerV1 (env : EnvV1) (req0 : RequesterState) : InnerOut :=
  let hd := env.handlerData
  let req := req0
  -- lines 135-151: request content type, only if a request body is declared.
  let ctStep : Option MimeTypeHandler ⊕ InnerOut :=
    if hd.hasRequestBody then
      if req.contentType = "" then
        .inr (errDoneV1 env req none 415 (.msg "Content-Type MIME type not provided")
          [Phase.negotiateRequestMime])
      else
        match mimeTypeHandlersGet env.mimeTypeHandlers req.contentType hd.requestMimeTypes with
        | none =>
            .inr (errDoneV1 env req none 415 (.msg "Content-Type MIME type not supported")
              [Phase.negotiateRequestMime])
        | some m => .inl (some m)
    else .inl none
  match ctStep with
  | .inr out => out
  | .inl requestMimeType =>
  let t := if hd.hasRequestBody then [Phase.negotiateRequestMime] else []
  -- lines 153-171: response content type, ONLY if a response body is declared.
  let acceptStep : Option MimeTypeHandler ⊕ InnerOut :=
    if hd.hasResponseBody then
      if req.accept = "" then
        .inr (errDoneV1 env req none 415 (.msg "Accept MIME type not provided")
          (t ++ [Phase.negotiateResponseMime]))
      else
        match mimeTypeHandlersGet env.mimeTypeHandlers req.accept hd.responseMimeTypes with
        | none =>
            .inr (errDoneV1 env req none 415 (.msg "Accept MIME type not supported")
              (t ++ [Phase.negotiateResponseMime]))
        | some rm => .inl (some rm)
    else .inl none
  match acceptStep with
  | .inr out => out
  | .inl responseMimeType =>
  let t := if hd.hasResponseBody then t ++ [Phase.negotiateResponseMime] else t
  -- line 168: set the response content type when negotiated.
  let req :=
    match responseMimeType with
    | some rm => setResponseContentType req rm.mimeType
    | none => req
  -- line 174: poll.
  if !env.shouldContinue 0 then
    errDoneV1 env req responseMimeType 408 .requestTimeout t
  else
  -- lines 180-193: authentication via Config.Auther.
  let authStep : Option InnerOut :=
    if env.hasAuther then
      match env.auth with
      | .panicked p => some (.panicked p responseMimeType req (t ++ [Phase.authPhase]))
      | .ret (s, some e) =>
          some (errDoneV1 env req responseMimeType s e (t ++ [Phase.authPhase]))
      | .ret (_, none) => none
    else none
  match authStep with
  | some out => out
  | none =>
  let t := if env.hasAuther then t ++ [Phase.authPhase] else t
  -- line 195: poll.
  if !env.shouldContinue 1 then
    errDoneV1 env req responseMimeType 408 .requestTimeout t
  else
  -- lines 200-208: allocation and binding (no failure paths in part_001).
  let t := t ++ [Phase.bindPhase]
  -- lines 210-246: Handle Request block.
  let reqBodyStep : Option InnerOut :=
    -- line 212: poll.
    if !env.shouldContinue 2 then
      some (errDoneV1 env req responseMimeType 408 .requestTimeout t)
    else
      if hd.hasRequestBody then
        match requestMimeType with
        | none => some (.panicked "nil pointer dereference" responseMimeType req t)
        | some m =>
          match m.unmarshal req.requestBody with
          | .panicked p =>
              some (.panicked p responseMimeType req (t ++ [Phase.unmarshalPhase]))
          | .ret (some _) =>
              some (errDoneV1 env req responseMimeType 400 .requestBodyUnmarshalFailure
                (t ++ [Phase.unmarshalPhase]))
          | .ret none =>
            if env.hasRequestValidator && hd.shouldValidateRequest then
              match env.validateRequest req.requestBody with
              | .panicked p =>
                  some (.panicked p responseMimeType req
                    (t ++ [Phase.unmarshalPhase, Phase.validateRequestPhase]))
              | .ret (s, some f) =>
                  some (errDoneV1 env req responseMimeType s f
                    (t ++ [Phase.unmarshalPhase, Phase.validateRequestPhase]))
              | .ret (_, none) => none
            else none
      else none
  match reqBodyStep with
  | some out => out
  | none =>
  let t :=
    if hd.hasRequestBody then
      if env.hasRequestValidator && hd.shouldValidateRequest then
        t ++ [Phase.unmarshalPhase, Phase.validateRequestPhase]
      else t ++ [Phase.unmarshalPhase]
    else t
  -- line 248: poll.
  if !env.shouldContinue 3 then
    errDoneV1 env req responseMimeType 408 .requestTimeout t
  else
  -- lines 253-261: the user handler.
  match env.handle with
  | .panicked p => .panicked p responseMimeType req (t ++ [Phase.handlePhase])
  | .ret ((hs, some e), _) =>
      errDoneV1 env req responseMimeType hs e (t ++ [Phase.handlePhase])
  | .ret ((hs, none), respObj) =>
  let t := t ++ [Phase.handlePhase]
  -- lines 263-292: Handle Response block.
  -- line 265: poll.
  if !env.shouldContinue 4 then
    errDoneV1 env req responseMimeType 408 .requestTimeout t
  else
  -- lines 270-276 and 349-368: getHandlerResponseBody.
  let respStep : (List Nat × RequesterState × List Phase) ⊕ InnerOut :=
    if hd.hasResponseBody then
      match responseMimeType with
      | none => .inr (.panicked "nil pointer dereference" responseMimeType req t)
      | some rm =>
        let req := setResponseContentType req rm.mimeType
        let t := t ++ [Phase.marshalPhase]
        match rm.marshal (.respObj respObj) with
        | .panicked p => .inr (.panicked p responseMimeType req t)
        | .ret (_, some _) =>
            .inr (errDoneV1 env req responseMimeType 500 .responseBodyMarshalFailure t)
        | .ret (bs, none) =>
            if bs = nullBytes then
              .inr (errDoneV1 env req responseMimeType 500 .responseBodyNull t)
            else .inl (bs, req, t)
    else .inl ([], req, t)
  match respStep with
  | .inr out => out
  | .inl (responseBody, req, t) =>
  -- On this path `getHandlerResponseBody` succeeded, so the Go `err`
  -- variable is nil (a non-nil `err` returned at line 273-276).
  let errVar : Option Err := none
  -- lines 278-291: response validation.
  let valStep : (Int × List Phase) ⊕ InnerOut :=
    if env.hasResponseValidator && hd.shouldValidateResponse then
      let t := t ++ [Phase.validateResponsePhase]
      match env.validateResponse hs responseBody with
      | .panicked p => .inr (.panicked p responseMimeType req t)
      | .ret (s2, validationFailure) =>
          -- line 285: `if err != nil` — the branch tests the STALE `err`
          -- variable, not `validationFailure`; `err` is nil here, so the
          -- validation-failure branch is dead code and `httpStatus` has
          -- already been overwritten with the validator's status `s2`.
          if errVar.isSome then
            match validationFailure with
            | some f => .inr (errDoneV1 env req responseMimeType s2 f t)
            | none => .inr (errDoneV1 env req responseMimeType s2 .nilErr t)
          else .inl (s2, t)
    else .inl (hs, t)
  match valStep with
  | .inr out => out
  | .inl (finalStatus, t) =>
  -- lines 294-296: success return (no ETag phase in part_001).
  .done finalStatus responseBody req t

/-- part_001 `Execute` (lines 95-297): the pipeline body wrapped in its
single deferred recover (lines 98-103), which renders the FIXED
`ErrorPanic` sentinel with status 500 — the panic payload is logged but
never used in the response. -/
def ExecuteV1 (env : EnvV1) (req0 : RequesterState) : ExecOut :=
  match innerV1 env req0 with
  | .done s b r t => .ret s b r t
  | .panicked _ rmt r t =>
      match processErrorResponseV1 env.handleError r rmt 500 .errorPanic with
      | .ok s b r' => .ret s b r' t
      | .panicked p2 r' => .panicEscape p2 r' t

/-! ## Result accessors and concrete fixtures -/

/-- The phase trace of an `Execute` outcome. -/
def ExecOut.trace : ExecOut → List Phase
  | .ret _ _ _ t => t
  | .panicEscape _ _ t => t

/-- The final response content type of an `Execute` outcome. -/
def ExecOut.respContentType : ExecOut → Option String
  | .ret _ _ r _ => r.responseContentType
  | .panicEscape _ r _ => r.responseContentType

/-- A concrete JSON-like codec: response objects marshal to `"ok"` bytes,
error payloads to `"err"` bytes, decoding always succeeds. -/
def jsonLikeHandler : MimeTypeHandler :=
  { mimeType := "application/json"
    marshal := fun a =>
      match a with
      | .respObj _ => .ret ([111, 107], none)
      | .errObj _ => .ret ([101, 114, 114], none)
    unmarshal := fun _ => .ret none }

/-- A codec whose error-payload marshal fails (used to exercise the
plain-text degradation of `processErrorResponse`). -/
def badErrHandler : MimeTypeHandler :=
  { mimeType := "application/json"
    marshal := fun a =>
      match a with
      | .respObj _ => .ret ([111, 107], none)
      | .errObj _ => .ret ([], some .parseFailure)
    unmarshal := fun _ => .ret none }

/-- Handler metadata declaring a validated response body. -/
def hdRespValidated : HandlerTypeData :=
  { hasResponseBody := true
    responseMimeTypes := ["application/json"]
    shouldValidateResponse := true }

/-- part_001 environment for claim C1: a response validator is configured
and enabled, and it rejects the response with status 422. -/
def envC1 : EnvV1 :=
  { handlerData := hdRespValidated
    mimeTypeHandlers := [("application/json", jsonLikeHandler)]
    hasResponseValidator := true
    validateResponse := fun _ _ => .ret (422, some (.msg "invalid output")) }

/-! ## Response content-type tracking (claim C2) -/

/-- The response content type recorded in a `processErrorResponse`
outcome. -/
def ErrOut.respCT : ErrOut → Option String
  | .ok _ _ r => r.responseContentType
  | .panicked _ r => r.responseContentType

/-- The response content type recorded in a pipeline outcome. -/
def InnerOut.respCT : InnerOut → Option String
  | .done _ _ r _ => r.responseContentType
  | .panicked _ _ r _ => r.responseContentType

/-- part_002 environment for the C2 counterexample: the handler fails, and
the error-payload marshal of the negotiated codec also fails, so
`processErrorResponse` degrades the already-negotiated response content
type to plain text. -/
def envC2 : EnvV2 :=
  { handlerData := { hasResponseBody := true, responseMimeTypes := ["application/json"] }
    mimeTypeHandlers := [("application/json", badErrHandler)]
    handle := .ret ((400, some (.msg "boom")), ⟨0⟩) }

/-- part_002 environment with only the default handler metadata and a
JSON codec registered (used by witnesses). -/
def envPlain : EnvV2 :=
  { handlerData := {}
    mimeTypeHandlers := [("application/json", jsonLikeHandler)] }

/-- part_002 environment whose handler declares no response body but
allows `application/json` for negotiation (used by witnesses). -/
def envNoBody : EnvV2 :=
  { handlerData := { responseMimeTypes := ["application/json"] }
    mimeTypeHandlers := [("application/json", jsonLikeHandler)] }

/-- part_002 environment whose cancellation signal is already expired at
every poll (used by the C5 witness). -/
def envExpired : EnvV2 :=
  { handlerData := { responseMimeTypes := ["application/json"] }
    mimeTypeHandlers := [("application/json", jsonLikeHandler)]
    shouldContinue := fun _ => false }

/-- part_002 environment whose resource-binding step panics (used by the
C4 witness). -/
def envPanicBind : EnvV2 :=
  { handlerData := { responseMimeTypes := ["application/json"] }
    mimeTypeHandlers := [("application/json", jsonLikeHandler)]
    setResources := .panicked "boom" }

/-- part_002 environment whose user handler panics (used by the C4
witness). -/
def envPanicHandle : EnvV2 :=
  { handlerData := { responseMimeTypes := ["application/json"] }
    mimeTypeHandlers := [("application/json", jsonLikeHandler)]
    handle := .panicked "boom" }

/-! ## Theorems -/

/-! ## Association-list lemmas -/

theorem mapGet_mapSet_self {α : Type} (m : List (String × α)) (k : String) (v : α) :
    mapGet (mapSet m k v) k = some v := by
  induction m with
  | nil => simp [mapSet, mapGet]
  | cons p rest ih =>
      obtain ⟨k', v'⟩ := p
      by_cases h : k' = k
      · simp [mapSet, mapGet, h]
      · simp [mapSet, mapGet, h, ih]

theorem mapGet_mapSet_ne {α : Type} (m : List (String × α)) {k' k : String} (v : α)
    (h : k' ≠ k) : mapGet (mapSet m k' v) k = mapGet m k := by
  induction m with
  | nil => simp [mapSet, mapGet, h]
  | cons p rest ih =>
      obtain ⟨k₀, v₀⟩ := p
      simp only [mapSet]
      by_cases h₀ : k₀ = k'
      · subst h₀
        simp [mapGet, h]
      · simp only [if_neg h₀, mapGet]
        by_cases h₁ : k₀ = k
        · simp [h₁]
        · simp [h₁, ih]

/-! ## ETag helper lemmas -/

theorem checkEtagNoneMatch_eq_true_iff (l : List String) (fp : String) :
    checkEtagNoneMatch l fp = true ↔ ∃ t ∈ l, t = anything ∨ t = fp := by
  simp [checkEtagNoneMatch]

theorem checkEtagMatch_eq_true_iff (l : List String) (fp : String) :
    checkEtagMatch l fp = true ↔ ∀ t ∈ l, t ≠ anything ∧ t ≠ fp := by
  simp [checkEtagMatch]

theorem skipETagCheck_eq_false_iff (s : Int) (b : List Nat) (r : RequesterState) :
    skipETagCheck s b r = false ↔
      ((200 ≤ s ∧ s < 300) ∧ b ≠ [] ∧ goContains r.cacheControl noCache = false ∧
        ¬(r.ifNoneMatch = "" ∧ r.ifMatch = "")) := by
  simp [skipETagCheck, List.length_eq_zero]
  tauto

theorem handleETag_eq_of_noskip (digest : List Nat → List Nat) (r : RequesterState)
    (maxAgeSeconds s : Int) (body : List Nat)
    (hskip : skipETagCheck s body r = false) :
    HandleETag digest r maxAgeSeconds s body =
      match isCacheFresh r.ifNoneMatch r.ifMatch (eTagFingerprint digest body) with
      | (newStatus, true) => ⟨etagHeaders digest r maxAgeSeconds body, newStatus, []⟩
      | (_, false) => ⟨etagHeaders digest r maxAgeSeconds body, s, body⟩ := by
  rw [HandleETag]
  rw [if_neg (by simp [hskip])]
  rcases hf : isCacheFresh r.ifNoneMatch r.ifMatch (eTagFingerprint digest body) with ⟨n, ok⟩
  cases ok <;> simp [etagHeaders, hf]

theorem mapGet_etagHeaders_eTag (digest : List Nat → List Nat) (r : RequesterState)
    (maxAgeSeconds : Int) (body : List Nat) :
    mapGet (etagHeaders digest r maxAgeSeconds body).responseHeaders headerETag =
      some (eTagFingerprint digest body) := by
  by_cases h : maxAgeSeconds = 0
  · simp [etagHeaders, h, setResponseHeader, mapGet_mapSet_self]
  · have hne : headerCacheControl ≠ headerETag := by decide
    simp [etagHeaders, h, setResponseHeader, mapGet_mapSet_ne _ _ hne, mapGet_mapSet_self]

theorem mapGet_etagHeaders_cacheControl (digest : List Nat → List Nat) (r : RequesterState)
    (maxAgeSeconds : Int) (body : List Nat) :
    mapGet (etagHeaders digest r maxAgeSeconds body).responseHeaders headerCacheControl =
      if maxAgeSeconds ≠ 0 then some ("max-age=" ++ toString maxAgeSeconds)
      else mapGet r.responseHeaders headerCacheControl := by
  by_cases h : maxAgeSeconds = 0
  · have hne : headerETag ≠ headerCacheControl := by decide
    simp [etagHeaders, h, setResponseHeader, mapGet_mapSet_ne _ _ hne]
  · simp [etagHeaders, h, setResponseHeader, mapGet_mapSet_self]

/-- Claim C7 (confirmed): whenever the status is outside `[200,300)`, or the
response body is empty, or the request's Cache-Control header contains
`"no-cache"`, or neither `If-None-Match` nor `If-Match` is present,
`HandleETag` returns the input status and body unchanged and sets neither
the `ETag` nor the `Cache-Control` response header (the requester state is
returned untouched). -/
theorem claim_c7_skip_passthrough (digest : List Nat → List Nat) (r : RequesterState)
    (maxAgeSeconds httpStatus : Int) (responseBody : List Nat)
    (h : ¬(200 ≤ httpStatus ∧ httpStatus < 300) ∨ responseBody = [] ∨
      goContains r.cacheControl noCache = true ∨ (r.ifNoneMatch = "" ∧ r.ifMatch = "")) :
    HandleETag digest r maxAgeSeconds httpStatus responseBody =
      ⟨r, httpStatus, responseBody⟩ := by
  have hskip : skipETagCheck httpStatus responseBody r = true := by
    cases hb : skipETagCheck httpStatus responseBody r
    · rw [skipETagCheck_eq_false_iff] at hb
      exfalso
      rcases h with h | h | h | h
      · exact h hb.1
      · exact hb.2.1 h
      · rw [hb.2.2.1] at h
        exact Bool.false_ne_true h
      · exact hb.2.2.2 h
    · rfl
  rw [HandleETag, if_pos (by simp [hskip])]

/-- Witness for C7 at a concrete input: a 400 status passes through. -/
theorem claim_c7_witness :
    HandleETag (fun _ => List.replicate 2 0) { ifNoneMatch := "x" } 0 400 [97] =
      ⟨{ ifNoneMatch := "x" }, 400, [97]⟩ :=
  claim_c7_skip_passthrough (fun _ => List.replicate 2 0) { ifNoneMatch := "x" } 0 400 [97]
    (Or.inl (by decide))

/-- Claim C6 (confirmed): in an If-None-Match evaluation that is not
skipped, only If-None-Match is consulted; the header is split on commas and
tokens trimmed; if some token equals `"*"` or the fingerprint the result is
`(304, [])` with the `ETag` response header still set, otherwise the
original status and body are returned. -/
theorem claim_c6_if_none_match (digest : List Nat → List Nat) (r : RequesterState)
    (maxAgeSeconds s : Int) (body : List Nat)
    (h1 : 200 ≤ s) (h2 : s < 300) (h3 : body ≠ [])
    (h4 : goContains r.cacheControl noCache = false)
    (hinm : r.ifNoneMatch ≠ "") :
    mapGet (HandleETag digest r maxAgeSeconds s body).requester.responseHeaders headerETag =
      some (eTagFingerprint digest body) ∧
    ((∃ t ∈ trimTags (goSplit r.ifNoneMatch comma),
        t = anything ∨ t = eTagFingerprint digest body) →
      (HandleETag digest r maxAgeSeconds s body).httpStatus = 304 ∧
        (HandleETag digest r maxAgeSeconds s body).responseBody = []) ∧
    ((∀ t ∈ trimTags (goSplit r.ifNoneMatch comma),
        t ≠ anything ∧ t ≠ eTagFingerprint digest body) →
      (HandleETag digest r maxAgeSeconds s body).httpStatus = s ∧
        (HandleETag digest r maxAgeSeconds s body).responseBody = body) := by
  have hskip : skipETagCheck s body r = false := by
    rw [skipETagCheck_eq_false_iff]
    exact ⟨⟨h1, h2⟩, h3, h4, fun hc => hinm hc.1⟩
  rw [handleETag_eq_of_noskip digest r maxAgeSeconds s body hskip]
  rw [isCacheFresh, if_pos hinm]
  rcases hc : checkEtagNoneMatch (trimTags (goSplit r.ifNoneMatch comma))
      (eTagFingerprint digest body) with _ | _
  · refine ⟨by simpa using mapGet_etagHeaders_eTag digest r maxAgeSeconds body, ?_, ?_⟩
    · intro hex
      exact absurd ((checkEtagNoneMatch_eq_true_iff _ _).2 hex) (by simp [hc])
    · intro _
      simp
  · refine ⟨by simpa using mapGet_etagHeaders_eTag digest r maxAgeSeconds body, ?_, ?_⟩
    · intro _
      simp
    · intro hall
      have := (checkEtagNoneMatch_eq_true_iff (trimTags (goSplit r.ifNoneMatch comma))
        (eTagFingerprint digest body)).1 hc
      rcases this with ⟨t, ht, hor⟩
      rcases hor with h | h
      · exact absurd h (hall t ht).1
      · exact absurd h (hall t ht).2

/-- Witness for C6 at a concrete input: `If-None-Match: *` yields 304 with
an empty body and the ETag header set. -/
theorem claim_c6_witness :
    mapGet (HandleETag (fun _ => List.replicate 2 0) { ifNoneMatch := "*" } 0 200
        [97]).requester.responseHeaders headerETag = some "1-0000" ∧
    (HandleETag (fun _ => List.replicate 2 0) { ifNoneMatch := "*" } 0 200 [97]).httpStatus =
      304 := by
  have h := claim_c6_if_none_match (fun _ => List.replicate 2 0) { ifNoneMatch := "*" } 0 200
    [97] (by decide) (by decide) (by decide) (by decide) (by decide)
  refine ⟨by simpa using h.1, ?_⟩
  exact (h.2.1 ⟨"*", by decide, Or.inl rfl⟩).1

/-- Counterexample for C3: `If-Match: *` (skip conditions not met,
If-None-Match absent) does NOT yield 412 — the code returns the original
status and body, i.e. the wildcard satisfies If-Match. -/
theorem claim_c3_counterexample :
    (HandleETag (fun _ => List.replicate 2 0) { ifMatch := "*" } 0 200 [97]).httpStatus = 200 ∧
    (HandleETag (fun _ => List.replicate 2 0) { ifMatch := "*" } 0 200 [97]).responseBody =
      [97] ∧
    ¬((HandleETag (fun _ => List.replicate 2 0) { ifMatch := "*" } 0 200
        [97]).httpStatus = 412) := by
  refine ⟨by decide, by decide, by decide⟩

/-- Claim C3 as amended: in an If-Match evaluation (If-None-Match absent,
If-Match present, skip conditions not met) the header is split on commas
and tokens trimmed; the result is `(412, [])` exactly when no token equals
the fingerprint AND no token equals `"*"`; a token equal to `"*"` (like one
equal to the fingerprint) satisfies If-Match and the original status and
body pass through. -/
theorem claim_c3_if_match (digest : List Nat → List Nat) (r : RequesterState)
    (maxAgeSeconds s : Int) (body : List Nat)
    (h1 : 200 ≤ s) (h2 : s < 300) (h3 : body ≠ [])
    (h4 : goContains r.cacheControl noCache = false)
    (hinm : r.ifNoneMatch = "") (him : r.ifMatch ≠ "") :
    ((∀ t ∈ trimTags (goSplit r.ifMatch comma),
        t ≠ anything ∧ t ≠ eTagFingerprint digest body) →
      (HandleETag digest r maxAgeSeconds s body).httpStatus = 412 ∧
        (HandleETag digest r maxAgeSeconds s body).responseBody = []) ∧
    ((∃ t ∈ trimTags (goSplit r.ifMatch comma),
        t = anything ∨ t = eTagFingerprint digest body) →
      (HandleETag digest r maxAgeSeconds s body).httpStatus = s ∧
        (HandleETag digest r maxAgeSeconds s body).responseBody = body) := by
  have hskip : skipETagCheck s body r = false := by
    rw [skipETagCheck_eq_false_iff]
    exact ⟨⟨h1, h2⟩, h3, h4, fun hc => him hc.2⟩
  rw [handleETag_eq_of_noskip digest r maxAgeSeconds s body hskip]
  rw [isCacheFresh, if_neg (by simp [hinm])]
  rcases hc : checkEtagMatch (trimTags (goSplit r.ifMatch comma))
      (eTagFingerprint digest body) with _ | _
  · refine ⟨?_, ?_⟩
    · intro hall
      exact absurd ((checkEtagMatch_eq_true_iff _ _).2 hall) (by simp [hc])
    · intro _
      simp
  · refine ⟨?_, ?_⟩
    · intro _
      simp
    · intro hex
      have hall := (checkEtagMatch_eq_true_iff (trimTags (goSplit r.ifMatch comma))
        (eTagFingerprint digest body)).1 hc
      rcases hex with ⟨t, ht, hor⟩
      rcases hor with h | h
      · exact absurd h (hall t ht).1
      · exact absurd h (hall t ht).2

/-- Witness for the amended C3: an If-Match token matching neither the
fingerprint nor `"*"` yields `(412, [])`. -/
theorem claim_c3_witness :
    (HandleETag (fun _ => List.replicate 2 0) { ifMatch := "x" } 0 200 [97]).httpStatus =
      412 ∧
    (HandleETag (fun _ => List.replicate 2 0) { ifMatch := "x" } 0 200 [97]).responseBody =
      [] := by
  have h := claim_c3_if_match (fun _ => List.replicate 2 0) { ifMatch := "x" } 0 200 [97]
    (by decide) (by decide) (by decide) (by decide) (by decide) (by decide)
  exact h.1 (by decide)

/-- Counterexample for C8: the fingerprint is NOT the plain concatenation
of the decimal length with the hex digest — a `"-"` separator stands
between them (`strconv.Itoa(len) + "-" + hex.EncodeToString(...)`). -/
theorem claim_c8_counterexample :
    eTagFingerprint (fun _ => List.replicate 32 0) [97] ≠
      toString ([97] : List Nat).length ++
        hexEncode ((fun _ => List.replicate 32 0) [97]) := by
  decide

/-- Claim C8 as amended: the fingerprint equals the decimal byte-length of
the body, a `"-"` separator, and the hex-encoded digest of the body bytes;
it is a pure deterministic function of the body — two non-skipped
invocations with the same body (but different headers, status or max-age)
store the identical fingerprint in the ETag response header. -/
theorem claim_c8_fingerprint (digest : List Nat → List Nat) (r r' : RequesterState)
    (m m' s s' : Int) (body : List Nat)
    (h1 : 200 ≤ s) (h2 : s < 300) (h3 : body ≠ [])
    (h4 : goContains r.cacheControl noCache = false)
    (h5 : ¬(r.ifNoneMatch = "" ∧ r.ifMatch = ""))
    (h1' : 200 ≤ s') (h2' : s' < 300)
    (h4' : goContains r'.cacheControl noCache = false)
    (h5' : ¬(r'.ifNoneMatch = "" ∧ r'.ifMatch = "")) :
    mapGet (HandleETag digest r m s body).requester.responseHeaders headerETag =
      some (toString body.length ++ "-" ++ hexEncode (digest body)) ∧
    mapGet (HandleETag digest r' m' s' body).requester.responseHeaders headerETag =
      mapGet (HandleETag digest r m s body).requester.responseHeaders headerETag := by
  have hskip : skipETagCheck s body r = false := by
    rw [skipETagCheck_eq_false_iff]
    exact ⟨⟨h1, h2⟩, h3, h4, h5⟩
  have hskip' : skipETagCheck s' body r' = false := by
    rw [skipETagCheck_eq_false_iff]
    exact ⟨⟨h1', h2'⟩, h3, h4', h5'⟩
  have e1 : mapGet (HandleETag digest r m s body).requester.responseHeaders headerETag =
      some (eTagFingerprint digest body) := by
    rw [handleETag_eq_of_noskip digest r m s body hskip]
    rcases hf : isCacheFresh r.ifNoneMatch r.ifMatch (eTagFingerprint digest body) with ⟨n, ok⟩
    cases ok <;> simpa [hf] using mapGet_etagHeaders_eTag digest r m body
  have e2 : mapGet (HandleETag digest r' m' s' body).requester.responseHeaders headerETag =
      some (eTagFingerprint digest body) := by
    rw [handleETag_eq_of_noskip digest r' m' s' body hskip']
    rcases hf : isCacheFresh r'.ifNoneMatch r'.ifMatch (eTagFingerprint digest body) with ⟨n, ok⟩
    cases ok <;> simpa [hf] using mapGet_etagHeaders_eTag digest r' m' body
  refine ⟨?_, by rw [e1, e2]⟩
  rw [e1]
  rfl

/-- Witness for the amended C8 at a concrete input. -/
theorem claim_c8_witness :
    mapGet (HandleETag (fun _ => List.replicate 2 0) { ifNoneMatch := "q" } 0 200
        [97]).requester.responseHeaders headerETag = some "1-0000" ∧
    mapGet (HandleETag (fun _ => List.replicate 2 0) { ifMatch := "z", cacheControl := "public" }
        5 299 [97]).requester.responseHeaders headerETag =
      mapGet (HandleETag (fun _ => List.replicate 2 0) { ifNoneMatch := "q" } 0 200
        [97]).requester.responseHeaders headerETag := by
  have h := claim_c8_fingerprint (fun _ => List.replicate 2 0) { ifNoneMatch := "q" }
    { ifMatch := "z", cacheControl := "public" } 0 5 200 299 [97]
    (by decide) (by decide) (by decide) (by decide) (by decide)
    (by decide) (by decide) (by decide) (by decide)
  exact ⟨by simpa using h.1, h.2⟩

/-- Counterexample for C9: a NEGATIVE configured max-age is not omitted —
the code tests `maxAgeSeconds != 0`, so `-1` sets
`Cache-Control: max-age=-1`. -/
theorem claim_c9_counterexample :
    mapGet (HandleETag (fun _ => List.replicate 2 0) { ifNoneMatch := "x" } (-1) 200
        [97]).requester.responseHeaders headerCacheControl = some "max-age=-1" ∧
    ¬(mapGet (HandleETag (fun _ => List.replicate 2 0) { ifNoneMatch := "x" } (-1) 200
        [97]).requester.responseHeaders headerCacheControl = none) := by
  refine ⟨by decide, by decide⟩

/-- Claim C9 as amended: when conditional processing is not skipped the
ETag response header is always set, and the Cache-Control response header
is set to `"max-age=N"` exactly when the configured max-age `N` is
non-zero (including negative values); only a zero max-age leaves the
Cache-Control header untouched. -/
theorem claim_c9_headers (digest : List Nat → List Nat) (r : RequesterState)
    (maxAgeSeconds s : Int) (body : List Nat)
    (h1 : 200 ≤ s) (h2 : s < 300) (h3 : body ≠ [])
    (h4 : goContains r.cacheControl noCache = false)
    (h5 : ¬(r.ifNoneMatch = "" ∧ r.ifMatch = "")) :
    mapGet (HandleETag digest r maxAgeSeconds s body).requester.responseHeaders headerETag =
      some (eTagFingerprint digest body) ∧
    (maxAgeSeconds ≠ 0 →
      mapGet (HandleETag digest r maxAgeSeconds s body).requester.responseHeaders
        headerCacheControl = some ("max-age=" ++ toString maxAgeSeconds)) ∧
    (maxAgeSeconds = 0 →
      mapGet (HandleETag digest r maxAgeSeconds s body).requester.responseHeaders
        headerCacheControl = mapGet r.responseHeaders headerCacheControl) := by
  have hskip : skipETagCheck s body r = false := by
    rw [skipETagCheck_eq_false_iff]
    exact ⟨⟨h1, h2⟩, h3, h4, h5⟩
  rw [handleETag_eq_of_noskip digest r maxAgeSeconds s body hskip]
  rcases hf : isCacheFresh r.ifNoneMatch r.ifMatch (eTagFingerprint digest body) with ⟨n, ok⟩
  have hcc := mapGet_etagHeaders_cacheControl digest r maxAgeSeconds body
  cases ok
  · refine ⟨by simpa [hf] using mapGet_etagHeaders_eTag digest r maxAgeSeconds body, ?_, ?_⟩
    · intro hne
      simp only [hf]
      rw [hcc, if_pos hne]
    · intro h0
      simp only [hf]
      rw [hcc, if_neg (by simp [h0])]
  · refine ⟨by simpa [hf] using mapGet_etagHeaders_eTag digest r maxAgeSeconds body, ?_, ?_⟩
    · intro hne
      simp only [hf]
      rw [hcc, if_pos hne]
    · intro h0
      simp only [hf]
      rw [hcc, if_neg (by simp [h0])]

/-- Witness for the amended C9: max-age 300 sets
`Cache-Control: max-age=300` and the ETag header. -/
theorem claim_c9_witness :
    mapGet (HandleETag (fun _ => List.replicate 2 0) { ifNoneMatch := "x" } 300 200
        [97]).requester.responseHeaders headerETag = some "1-0000" ∧
    mapGet (HandleETag (fun _ => List.replicate 2 0) { ifNoneMatch := "x" } 300 200
        [97]).requester.responseHeaders headerCacheControl = some "max-age=300" := by
  have h := claim_c9_headers (fun _ => List.replicate 2 0) { ifNoneMatch := "x" } 300 200 [97]
    (by decide) (by decide) (by decide) (by decide) (by decide)
  refine ⟨by simpa using h.1, ?_⟩
  simpa using h.2.1 (by decide)

theorem mapGet_eq_none_of_not_mem {α : Type} (l : List (String × α)) (k : String)
    (h : k ∉ l.map Prod.fst) : mapGet l k = none := by
  induction l with
  | nil => rfl
  | cons p rest ih =>
      obtain ⟨k₀, v₀⟩ := p
      simp only [List.map_cons, List.mem_cons, not_or] at h
      simp only [mapGet]
      rw [if_neg (fun hk => h.1 hk.symm), ih h.2]

/-- Claim C10 (confirmed): with a non-nil caller `MimeTypeHandlers` map,
the endpoint registry built by `NewEndpoint` resolves every key the caller
supplied to the caller's handler and every other key to the default
registry's handler — the caller's entries augment (or override) the
defaults, never replace the registry wholesale. -/
theorem claim_c10_registry_merge {α : Type} (defaults custom : List (String × α))
    (hnodup : (custom.map Prod.fst).Nodup) (k : String) :
    mapGet (newEndpointMimeTypeHandlers defaults custom) k =
      match mapGet custom k with
      | some v => some v
      | none => mapGet defaults k := by
  induction custom generalizing defaults with
  | nil => rfl
  | cons p rest ih =>
      obtain ⟨k₀, v₀⟩ := p
      simp only [List.map_cons, List.nodup_cons] at hnodup
      have hmerge :
          newEndpointMimeTypeHandlers defaults ((k₀, v₀) :: rest) =
            newEndpointMimeTypeHandlers (mapSet defaults k₀ v₀) rest := rfl
      rw [hmerge, ih (mapSet defaults k₀ v₀) hnodup.2]
      by_cases hk : k₀ = k
      · subst hk
        rw [mapGet_eq_none_of_not_mem rest k₀ hnodup.1]
        simp [mapGet, mapGet_mapSet_self]
      · simp only [mapGet, if_neg hk]
        rcases hrest : mapGet rest k with _ | v
        · rw [mapGet_mapSet_ne defaults v₀ hk]
        · rfl

/-- Witness for C10: a caller map overriding `application/json` and adding
`application/xml` on top of defaults containing `application/json` and
`text/css`: the default `text/css` survives, the caller's
`application/json` wins. -/
theorem claim_c10_witness :
    mapGet (newEndpointMimeTypeHandlers
        [("application/json", 1), ("text/css", 2)]
        [("application/json", 10), ("application/xml", 3)]) "text/css" = some 2 ∧
    mapGet (newEndpointMimeTypeHandlers
        [("application/json", 1), ("text/css", 2)]
        [("application/json", 10), ("application/xml", 3)]) "application/json" =
      some 10 := by
  constructor
  · rw [claim_c10_registry_merge
      [("application/json", 1), ("text/css", 2)]
      [("application/json", 10), ("application/xml", 3)] (by decide) "text/css"]
    decide
  · rw [claim_c10_registry_merge
      [("application/json", 1), ("text/css", 2)]
      [("application/json", 10), ("application/xml", 3)] (by decide) "application/json"]
    decide

/-- Claim C1 (code_bug, part_001 lines 278-291): the response validator
runs and returns the non-nil failure `(422, "invalid output")`, yet
`Execute` returns the handler's SUCCESS body `"ok"` with the validator's
status — because line 285 tests the stale `err` variable (always nil at
that point) instead of `validationFailure`, the failure is never routed
through `processErrorResponse`, whose output (the error body `"err"`)
differs.  part_002 line 354 fixes the check. -/
theorem claim_c1_stale_error_check :
    ExecuteV1 envC1 { accept := "application/json" } =
      .ret 422 [111, 107]
        { accept := "application/json", responseContentType := some "application/json" }
        [Phase.negotiateResponseMime, Phase.bindPhase, Phase.handlePhase,
          Phase.marshalPhase, Phase.validateResponsePhase] ∧
    processErrorResponseV1 envC1.handleError
        { accept := "application/json", responseContentType := some "application/json" }
        (some jsonLikeHandler) 422 (Err.msg "invalid output") =
      .ok 422 [101, 114, 114]
        { accept := "application/json", responseContentType := some "application/json" } ∧
    ([111, 107] : List Nat) ≠ [101, 114, 114] := by
  refine ⟨rfl, rfl, by decide⟩

theorem handleETag_respCT (digest : List Nat → List Nat) (r : RequesterState)
    (m s : Int) (b : List Nat) :
    (HandleETag digest r m s b).requester.responseContentType = r.responseContentType := by
  unfold HandleETag
  split
  · rfl
  · rcases hf : isCacheFresh r.ifNoneMatch r.ifMatch (eTagFingerprint digest b) with ⟨n, ok⟩
    cases ok <;>
      · simp only [hf, setResponseHeader]
        split <;> rfl

theorem processErrorResponseV2_respCT (h : Int → Err → Int × ErrStruct)
    (req : RequesterState) (rmt : Option MimeTypeHandler) (s : Int) (e : Err) :
    (processErrorResponseV2 h req rmt s e).respCT = req.responseContentType ∨
    (processErrorResponseV2 h req rmt s e).respCT = some mimeTypeTextPlain := by
  unfold processErrorResponseV2
  rcases rmt with _ | m
  · right
    rfl
  · rcases hm : m.marshal (.errObj (h s e).2) with ⟨bs, me⟩ | p
    · rcases me with _ | e'
      · left
        simp [hm, ErrOut.respCT]
      · right
        simp [hm, ErrOut.respCT, setResponseContentType]
    · left
      simp [hm, ErrOut.respCT]

theorem errDoneV2_respCT (env : EnvV2) (req : RequesterState)
    (rmt : Option MimeTypeHandler) (s : Int) (e : Err) (t : List Phase) :
    (errDoneV2 env req rmt s e t).respCT = req.responseContentType ∨
    (errDoneV2 env req rmt s e t).respCT = some mimeTypeTextPlain := by
  unfold errDoneV2
  rcases processErrorResponseV2_respCT env.handleError req rmt s e with h | h <;>
    rcases hm : processErrorResponseV2 env.handleError req rmt s e with _ | _ <;>
      rw [hm] at h <;> simp only [ErrOut.respCT, InnerOut.respCT] at h ⊢ <;>
        simp [h]

theorem authStepV2_respCT (env : EnvV2) (rm : MimeTypeHandler) (req : RequesterState)
    (t : List Phase) (out : InnerOut) (h : authStepV2 env rm req t = some out) :
    out.respCT = req.responseContentType ∨ out.respCT = some mimeTypeTextPlain := by
  unfold authStepV2 at h
  repeat' split at h
  all_goals cases h
  all_goals
    first
    | exact Or.inl rfl
    | exact errDoneV2_respCT _ _ _ _ _ _

theorem reqBodyStepV2_respCT (env : EnvV2) (rm : MimeTypeHandler)
    (reqMT : Option MimeTypeHandler) (req : RequesterState) (t : List Phase)
    (out : InnerOut) (h : reqBodyStepV2 env rm reqMT req t = some out) :
    out.respCT = req.responseContentType ∨ out.respCT = some mimeTypeTextPlain := by
  unfold reqBodyStepV2 at h
  repeat' split at h
  all_goals cases h
  all_goals
    first
    | exact Or.inl rfl
    | exact errDoneV2_respCT _ _ _ _ _ _

theorem respStepV2_inr_respCT (env : EnvV2) (rm : MimeTypeHandler) (o : RespObj)
    (req : RequesterState) (t : List Phase) (out : InnerOut)
    (h : respStepV2 env rm o req t = .inr out) :
    out.respCT = req.responseContentType ∨ out.respCT = some rm.mimeType ∨
    out.respCT = some mimeTypeTextPlain := by
  unfold respStepV2 at h
  repeat' split at h
  all_goals cases h
  all_goals
    first
    | exact Or.inr (Or.inl rfl)
    | exact Or.inr ((errDoneV2_respCT _ _ _ _ _ _).imp (fun hx => hx) (fun hx => hx))

theorem respStepV2_inl_respCT (env : EnvV2) (rm : MimeTypeHandler) (o : RespObj)
    (req : RequesterState) (t : List Phase) (rb : List Nat) (req' : RequesterState)
    (t' : List Phase) (h : respStepV2 env rm o req t = .inl (rb, req', t')) :
    req'.responseContentType = req.responseContentType ∨
    req'.responseContentType = some rm.mimeType := by
  unfold respStepV2 at h
  repeat' split at h
  all_goals cases h
  all_goals
    first
    | exact Or.inl rfl
    | exact Or.inr rfl

theorem valStepV2_inr_respCT (env : EnvV2) (rm : MimeTypeHandler) (hs : Int)
    (rb : List Nat) (req : RequesterState) (t : List Phase) (out : InnerOut)
    (h : valStepV2 env rm hs rb req t = .inr out) :
    out.respCT = req.responseContentType ∨ out.respCT = some mimeTypeTextPlain := by
  unfold valStepV2 at h
  repeat' split at h
  all_goals cases h
  all_goals
    first
    | exact Or.inl rfl
    | exact errDoneV2_respCT _ _ _ _ _ _

theorem afterNegotiationV2_respCT (env : EnvV2) (rm : MimeTypeHandler)
    (reqMT : Option MimeTypeHandler) (req : RequesterState) (t : List Phase) :
    (afterNegotiationV2 env rm reqMT req t).respCT = req.responseContentType ∨
    (afterNegotiationV2 env rm reqMT req t).respCT = some rm.mimeType ∨
    (afterNegotiationV2 env rm reqMT req t).respCT = some mimeTypeTextPlain := by
  unfold afterNegotiationV2
  rcases hres : env.setResources with ⟨_ | e⟩ | p
  rotate_left
  · simp only [hres]
    exact (errDoneV2_respCT _ _ _ _ _ _).imp id Or.inr
  · simp only [hres]
    exact Or.inl rfl
  simp only [hres]
  rcases hpath : env.setPathParameters with ⟨_ | e⟩ | p
  rotate_left
  · simp only [hpath]
    exact (errDoneV2_respCT _ _ _ _ _ _).imp id Or.inr
  · simp only [hpath]
    exact Or.inl rfl
  simp only [hpath]
  rcases hquery : env.setQueryParameters with ⟨_ | e⟩ | p
  rotate_left
  · simp only [hquery]
    exact (errDoneV2_respCT _ _ _ _ _ _).imp id Or.inr
  · simp only [hquery]
    exact Or.inl rfl
  simp only [hquery]
  rcases hauth : authStepV2 env rm req (t ++ [Phase.bindPhase]) with _ | out
  rotate_left
  · simp only [hauth]
    exact (authStepV2_respCT _ _ _ _ _ hauth).imp id Or.inr
  simp only [hauth]
  rcases hbody : reqBodyStepV2 env rm reqMT req
      (if env.handlerData.hasAuth then t ++ [Phase.bindPhase] ++ [Phase.authPhase]
       else t ++ [Phase.bindPhase]) with _ | out
  rotate_left
  · simp only [hbody]
    exact (reqBodyStepV2_respCT _ _ _ _ _ _ hbody).imp id Or.inr
  simp only [hbody]
  rcases hsc0 : env.shouldContinue 0 with _ | _
  · simp only [hsc0, Bool.not_false, if_pos]
    exact (errDoneV2_respCT _ _ _ _ _ _).imp id Or.inr
  simp only [hsc0, Bool.not_true, Bool.false_eq_true, if_false]
  rcases hh : env.handle with ⟨⟨hs, _ | e⟩, ro⟩ | p
  rotate_left
  · simp only [hh]
    exact (errDoneV2_respCT _ _ _ _ _ _).imp id Or.inr
  · simp only [hh]
    exact Or.inl rfl
  simp only [hh]
  rcases hsc1 : env.shouldContinue 1 with _ | _
  · simp only [hsc1, Bool.not_false, if_pos]
    exact (errDoneV2_respCT _ _ _ _ _ _).imp id Or.inr
  simp only [hsc1, Bool.not_true, Bool.false_eq_true, if_false]
  rcases hrs : respStepV2 env rm ro req
      ((if env.handlerData.hasRequestBody then
          if env.hasRequestValidator && env.handlerData.shouldValidateRequest then
            (if env.handlerData.hasAuth then t ++ [Phase.bindPhase] ++ [Phase.authPhase]
             else t ++ [Phase.bindPhase]) ++ [Phase.unmarshalPhase, Phase.validateRequestPhase]
          else (if env.handlerData.hasAuth then t ++ [Phase.bindPhase] ++ [Phase.authPhase]
             else t ++ [Phase.bindPhase]) ++ [Phase.unmarshalPhase]
        else (if env.handlerData.hasAuth then t ++ [Phase.bindPhase] ++ [Phase.authPhase]
             else t ++ [Phase.bindPhase])) ++ [Phase.handlePhase]) with ⟨rb, req2, t2⟩ | out
  rotate_left
  · simp only [hrs]
    exact respStepV2_inr_respCT _ _ _ _ _ _ hrs
  simp only [hrs]
  have hreq2 := respStepV2_inl_respCT _ _ _ _ _ _ _ _ hrs
  rcases hvs : valStepV2 env rm hs rb req2 t2 with ⟨s2, t3⟩ | out
  rotate_left
  · simp only [hvs]
    rcases valStepV2_inr_respCT _ _ _ _ _ _ _ hvs with h | h
    · rcases hreq2 with h2 | h2
      · exact Or.inl (h.trans h2)
      · exact Or.inr (Or.inl (h.trans h2))
    · exact Or.inr (Or.inr h)
  simp only [hvs]
  rcases het : env.handlerData.eTagEnabled with _ | _
  · simp only [het, Bool.false_eq_true, if_false]
    rcases hreq2 with h2 | h2
    · exact Or.inl h2
    · exact Or.inr (Or.inl h2)
  · simp only [het, if_pos]
    simp only [InnerOut.respCT, handleETag_respCT]
    rcases hreq2 with h2 | h2
    · exact Or.inl h2
    · exact Or.inr (Or.inl h2)

theorem innerV2_respCT_of_negotiated (env : EnvV2) (req : RequesterState)
    (rm : MimeTypeHandler)
    (hct : env.handlerData.hasRequestBody = true →
      req.contentType ≠ "" ∧
      (mimeTypeHandlersGet env.mimeTypeHandlers req.contentType
        env.handlerData.requestMimeTypes).isSome)
    (hacc : req.accept ≠ "")
    (hrm : mimeTypeHandlersGet env.mimeTypeHandlers req.accept
      env.handlerData.responseMimeTypes = some rm) :
    (innerV2 env req).respCT = some rm.mimeType ∨
    (innerV2 env req).respCT = some mimeTypeTextPlain := by
  unfold innerV2
  by_cases hrb : env.handlerData.hasRequestBody = true
  · obtain ⟨hct1, hct2⟩ := hct hrb
    obtain ⟨m, hm⟩ := Option.isSome_iff_exists.1 hct2
    simp only [hrb, setResponseHeader, if_true, hm, if_neg hct1, if_neg hacc, hrm]
    have h := afterNegotiationV2_respCT env rm (some m)
      (setResponseContentType (setResponseHeader req "X-Request-Id" req.requestId) rm.mimeType)
      ([Phase.negotiateRequestMime] ++ [Phase.negotiateResponseMime])
    simpa [setResponseContentType, setResponseHeader] using h
  · simp only [Bool.not_eq_true] at hrb
    simp only [hrb, setResponseHeader, Bool.false_eq_true, if_false, if_neg hacc, hrm]
    have h := afterNegotiationV2_respCT env rm none
      (setResponseContentType (setResponseHeader req "X-Request-Id" req.requestId) rm.mimeType)
      ([] ++ [Phase.negotiateResponseMime])
    simpa [setResponseContentType, setResponseHeader] using h

theorem ExecuteV2_respCT_of_negotiated (env : EnvV2) (req : RequesterState)
    (rm : MimeTypeHandler)
    (hct : env.handlerData.hasRequestBody = true →
      req.contentType ≠ "" ∧
      (mimeTypeHandlersGet env.mimeTypeHandlers req.contentType
        env.handlerData.requestMimeTypes).isSome)
    (hacc : req.accept ≠ "")
    (hrm : mimeTypeHandlersGet env.mimeTypeHandlers req.accept
      env.handlerData.responseMimeTypes = some rm) :
    (ExecuteV2 env req).respContentType = some rm.mimeType ∨
    (ExecuteV2 env req).respContentType = some mimeTypeTextPlain := by
  have hin := innerV2_respCT_of_negotiated env req rm hct hacc hrm
  unfold ExecuteV2
  rcases hi : innerV2 env req with ⟨s, b, r, t⟩ | ⟨p, rmt, r, t⟩
  · rw [hi] at hin
    simp only [InnerOut.respCT] at hin
    simp only [hi]
    simpa [ExecOut.respContentType] using hin
  · rw [hi] at hin
    simp only [InnerOut.respCT] at hin
    simp only [hi]
    have h := processErrorResponseV2_respCT env.handleError r rmt 500
      (.wrap (.recovered p) .internalServerError)
    rcases hpe : processErrorResponseV2 env.handleError r rmt 500
        (.wrap (.recovered p) .internalServerError) with ⟨s, b, r'⟩ | ⟨p2, r'⟩
    · rw [hpe] at h
      simp only [ErrOut.respCT] at h
      simp only [hpe, ExecOut.respContentType]
      rcases h with h | h
      · rw [h]
        exact hin
      · exact Or.inr h
    · rw [hpe] at h
      simp only [ErrOut.respCT] at h
      simp only [hpe, ExecOut.respContentType]
      rcases h with h | h
      · rw [h]
        exact hin
      · exact Or.inr h

/-- Counterexample for C2's "once resolved, the response content type
remains fixed": negotiation resolves `application/json` (and the content
type is set to it at part_002 line 215), but when the negotiated codec
later fails to marshal an error payload, `processErrorResponse` (line 410)
resets the response content type to plain text. -/
theorem claim_c2_counterexample :
    (mimeTypeHandlersGet envC2.mimeTypeHandlers "application/json"
        envC2.handlerData.responseMimeTypes).isSome = true ∧
    (ExecuteV2 envC2 { accept := "application/json" }).respContentType =
      some mimeTypeTextPlain ∧
    some mimeTypeTextPlain ≠ (some "application/json" : Option String) := by
  refine ⟨rfl, rfl, by decide⟩

/-- Claim C2 as amended: for every request whose request-body negotiation
does not fail first, `Execute` negotiates the response content type from
the Accept header — also when the handler declares no response body
(there is no `hasResponseBody` hypothesis below) — returning 415 when the
header is absent or not found in the registry for the handler's allowed
subset; once resolved, the response content type is set to the negotiated
type and for the rest of the execution it remains either that type or the
plain-text fallback installed when an error payload fails to marshal. -/
theorem claim_c2_always_negotiates_accept (env : EnvV2) (req : RequesterState)
    (hct : env.handlerData.hasRequestBody = true →
      req.contentType ≠ "" ∧
      (mimeTypeHandlersGet env.mimeTypeHandlers req.contentType
        env.handlerData.requestMimeTypes).isSome) :
    (req.accept = "" →
      ExecuteV2 env req =
        .ret 415
          (strBytes (errString (.wrap .invalidMimeType (.msg "Accept MIME type not provided"))))
          (setResponseContentType (setResponseHeader req "X-Request-Id" req.requestId)
            mimeTypeTextPlain)
          ((if env.handlerData.hasRequestBody then [Phase.negotiateRequestMime] else []) ++
            [Phase.negotiateResponseMime])) ∧
    (req.accept ≠ "" →
      mimeTypeHandlersGet env.mimeTypeHandlers req.accept
          env.handlerData.responseMimeTypes = none →
      ExecuteV2 env req =
        .ret 415
          (strBytes (errString (.wrap .invalidMimeType (.msg "Accept MIME type not supported"))))
          (setResponseContentType (setResponseHeader req "X-Request-Id" req.requestId)
            mimeTypeTextPlain)
          ((if env.handlerData.hasRequestBody then [Phase.negotiateRequestMime] else []) ++
            [Phase.negotiateResponseMime])) ∧
    (∀ rm, req.accept ≠ "" →
      mimeTypeHandlersGet env.mimeTypeHandlers req.accept
          env.handlerData.responseMimeTypes = some rm →
      (ExecuteV2 env req).respContentType = some rm.mimeType ∨
      (ExecuteV2 env req).respContentType = some mimeTypeTextPlain) := by
  refine ⟨?_, ?_, fun rm hacc hrm => ExecuteV2_respCT_of_negotiated env req rm hct hacc hrm⟩
  · intro hacc0
    by_cases hrb : env.handlerData.hasRequestBody = true
    · obtain ⟨hct1, hct2⟩ := hct hrb
      obtain ⟨m, hm⟩ := Option.isSome_iff_exists.1 hct2
      unfold ExecuteV2 innerV2
      simp [hrb, setResponseHeader, hm, if_neg hct1, hacc0, errDoneV2,
        processErrorResponseV2, setResponseContentType]
    · simp only [Bool.not_eq_true] at hrb
      unfold ExecuteV2 innerV2
      simp [hrb, setResponseHeader, hacc0, errDoneV2, processErrorResponseV2,
        setResponseContentType]
  · intro hacc hnone
    by_cases hrb : env.handlerData.hasRequestBody = true
    · obtain ⟨hct1, hct2⟩ := hct hrb
      obtain ⟨m, hm⟩ := Option.isSome_iff_exists.1 hct2
      unfold ExecuteV2 innerV2
      simp [hrb, setResponseHeader, hm, if_neg hct1, if_neg hacc, hnone, errDoneV2,
        processErrorResponseV2, setResponseContentType]
    · simp only [Bool.not_eq_true] at hrb
      unfold ExecuteV2 innerV2
      simp [hrb, setResponseHeader, if_neg hacc, hnone, errDoneV2,
        processErrorResponseV2, setResponseContentType]

/-- Witness for the amended C2 at concrete inputs: with no request body
declared and no Accept header, `Execute` returns 415; with
`Accept: application/json` the final content type is the negotiated one. -/
theorem claim_c2_witness :
    ExecuteV2 envPlain { requestId := "r1" } =
      .ret 415
        (strBytes (errString (.wrap .invalidMimeType (.msg "Accept MIME type not provided"))))
        (setResponseContentType (setResponseHeader { requestId := "r1" } "X-Request-Id" "r1")
          mimeTypeTextPlain)
        [Phase.negotiateResponseMime] ∧
    ((ExecuteV2 envNoBody { accept := "application/json" }).respContentType =
        some jsonLikeHandler.mimeType ∨
     (ExecuteV2 envNoBody { accept := "application/json" }).respContentType =
        some mimeTypeTextPlain) := by
  constructor
  · have h := claim_c2_always_negotiates_accept envPlain { requestId := "r1" }
      (by intro h; cases h)
    simpa using h.1 rfl
  · exact (claim_c2_always_negotiates_accept envNoBody { accept := "application/json" }
      (by intro h; cases h)).2.2 jsonLikeHandler (by decide) rfl

/-! ## Reaching the pre-handler cancellation poll (claims C4, C5) -/

theorem authStepV2_none (env : EnvV2) (rm : MimeTypeHandler) (req : RequesterState)
    (hauth : env.handlerData.hasAuth = true →
      env.handlerData.authIsAuthorizer = true ∧
      ∃ s, env.authorization = .ret (s, none)) (t : List Phase) :
    authStepV2 env rm req t = none := by
  unfold authStepV2
  by_cases ha : env.handlerData.hasAuth = true
  · obtain ⟨hia, s, hs⟩ := hauth ha
    simp [ha, hia, hs]
  · simp only [Bool.not_eq_true] at ha
    simp [ha]

theorem reqBodyStepV2_none (env : EnvV2) (rm : MimeTypeHandler)
    (reqMT : Option MimeTypeHandler) (req : RequesterState)
    (hunm : env.handlerData.hasRequestBody = true →
      ∃ m, reqMT = some m ∧ m.unmarshal req.requestBody = .ret none)
    (hval : (env.hasRequestValidator && env.handlerData.shouldValidateRequest) = true →
      ∃ s, env.validateRequest req.requestBody = .ret (s, none)) (t : List Phase) :
    reqBodyStepV2 env rm reqMT req t = none := by
  unfold reqBodyStepV2
  by_cases hrb : env.handlerData.hasRequestBody = true
  · obtain ⟨m, hm, hu⟩ := hunm hrb
    subst hm
    by_cases hv : (env.hasRequestValidator && env.handlerData.shouldValidateRequest) = true
    · obtain ⟨s, hs⟩ := hval hv
      simp [hrb, hu, hv, hs]
    · simp only [Bool.not_eq_true] at hv
      simp [hrb, hu, hv]
  · simp only [Bool.not_eq_true] at hrb
    simp [hrb]

theorem afterNegotiationV2_timeout0 (env : EnvV2) (rm : MimeTypeHandler)
    (reqMT : Option MimeTypeHandler) (req : RequesterState) (t : List Phase)
    (hres : env.setResources = .ret none)
    (hpath : env.setPathParameters = .ret none)
    (hquery : env.setQueryParameters = .ret none)
    (hauth : env.handlerData.hasAuth = true →
      env.handlerData.authIsAuthorizer = true ∧
      ∃ s, env.authorization = .ret (s, none))
    (hunm : env.handlerData.hasRequestBody = true →
      ∃ m, reqMT = some m ∧ m.unmarshal req.requestBody = .ret none)
    (hval : (env.hasRequestValidator && env.handlerData.shouldValidateRequest) = true →
      ∃ s, env.validateRequest req.requestBody = .ret (s, none))
    (hpoll : env.shouldContinue 0 = false) :
    ∃ tr, afterNegotiationV2 env rm reqMT req t =
        errDoneV2 env req (some rm) 408 .requestTimeout tr ∧
      tr ⊆ t ++ [Phase.bindPhase, Phase.authPhase, Phase.unmarshalPhase,
        Phase.validateRequestPhase] := by
  rcases ha : env.handlerData.hasAuth with _ | _ <;>
  rcases hrb : env.handlerData.hasRequestBody with _ | _ <;>
  rcases hv : env.hasRequestValidator && env.handlerData.shouldValidateRequest with _ | _ <;>
    (unfold afterNegotiationV2
     simp only [hres, hpath, hquery, authStepV2_none env rm req hauth,
       reqBodyStepV2_none env rm reqMT req hunm hval, ha, hrb, hv, hpoll,
       Bool.not_false, if_true, if_false, Bool.false_eq_true, Bool.true_eq_false,
       ite_true, ite_false]
     refine ⟨_, rfl, ?_⟩
     intro p hp
     simp only [List.mem_append, List.mem_cons, List.not_mem_nil, or_false] at hp ⊢
     tauto)

theorem afterNegotiationV2_handlerPanicked (env : EnvV2) (rm : MimeTypeHandler)
    (reqMT : Option MimeTypeHandler) (req : RequesterState) (t : List Phase)
    (p : String)
    (hres : env.setResources = .ret none)
    (hpath : env.setPathParameters = .ret none)
    (hquery : env.setQueryParameters = .ret none)
    (hauth : env.handlerData.hasAuth = true →
      env.handlerData.authIsAuthorizer = true ∧
      ∃ s, env.authorization = .ret (s, none))
    (hunm : env.handlerData.hasRequestBody = true →
      ∃ m, reqMT = some m ∧ m.unmarshal req.requestBody = .ret none)
    (hval : (env.hasRequestValidator && env.handlerData.shouldValidateRequest) = true →
      ∃ s, env.validateRequest req.requestBody = .ret (s, none))
    (hpoll : env.shouldContinue 0 = true)
    (hhandle : env.handle = .panicked p) :
    ∃ tr, afterNegotiationV2 env rm reqMT req t =
        .panicked p (some rm) req (tr ++ [Phase.handlePhase]) ∧
      tr ⊆ t ++ [Phase.bindPhase, Phase.authPhase, Phase.unmarshalPhase,
        Phase.validateRequestPhase] := by
  rcases ha : env.handlerData.hasAuth with _ | _ <;>
  rcases hrb : env.handlerData.hasRequestBody with _ | _ <;>
  rcases hv : env.hasRequestValidator && env.handlerData.shouldValidateRequest with _ | _ <;>
    (unfold afterNegotiationV2
     simp only [hres, hpath, hquery, authStepV2_none env rm req hauth,
       reqBodyStepV2_none env rm reqMT req hunm hval, ha, hrb, hv, hpoll, hhandle,
       Bool.not_true, if_true, if_false, Bool.false_eq_true, Bool.true_eq_false,
       ite_true, ite_false]
     refine ⟨_, rfl, ?_⟩
     intro q hq
     simp only [List.mem_append, List.mem_cons, List.not_mem_nil, or_false] at hq ⊢
     tauto)

theorem innerV2_eq_afterNegotiation_noBody (env : EnvV2) (req : RequesterState)
    (rm : MimeTypeHandler)
    (hrb : env.handlerData.hasRequestBody = false)
    (hacc : req.accept ≠ "")
    (hrm : mimeTypeHandlersGet env.mimeTypeHandlers req.accept
      env.handlerData.responseMimeTypes = some rm) :
    innerV2 env req = afterNegotiationV2 env rm none
      (setResponseContentType (setResponseHeader req "X-Request-Id" req.requestId)
        rm.mimeType)
      [Phase.negotiateResponseMime] := by
  unfold innerV2
  simp [hrb, setResponseHeader, if_neg hacc, hrm, setResponseContentType]

theorem innerV2_eq_afterNegotiation_body (env : EnvV2) (req : RequesterState)
    (rm m : MimeTypeHandler)
    (hrb : env.handlerData.hasRequestBody = true)
    (hct1 : req.contentType ≠ "")
    (hm : mimeTypeHandlersGet env.mimeTypeHandlers req.contentType
      env.handlerData.requestMimeTypes = some m)
    (hacc : req.accept ≠ "")
    (hrm : mimeTypeHandlersGet env.mimeTypeHandlers req.accept
      env.handlerData.responseMimeTypes = some rm) :
    innerV2 env req = afterNegotiationV2 env rm (some m)
      (setResponseContentType (setResponseHeader req "X-Request-Id" req.requestId)
        rm.mimeType)
      [Phase.negotiateRequestMime, Phase.negotiateResponseMime] := by
  unfold innerV2
  simp [hrb, setResponseHeader, if_neg hct1, hm, if_neg hacc, hrm, setResponseContentType]

theorem notMem_of_subset_append {p : Phase} {tr t al : List Phase}
    (hsub : tr ⊆ t ++ al) (hpt : p ∉ t) (hpal : p ∉ al) : p ∉ tr := by
  intro hm
  have := hsub hm
  rw [List.mem_append] at this
  rcases this with h | h
  · exact hpt h
  · exact hpal h

theorem afterNegotiationV2_timeout1 (env : EnvV2) (rm : MimeTypeHandler)
    (reqMT : Option MimeTypeHandler) (req : RequesterState) (t : List Phase)
    (hs : Int) (ro : RespObj)
    (hres : env.setResources = .ret none)
    (hpath : env.setPathParameters = .ret none)
    (hquery : env.setQueryParameters = .ret none)
    (hauth : env.handlerData.hasAuth = true →
      env.handlerData.authIsAuthorizer = true ∧
      ∃ s, env.authorization = .ret (s, none))
    (hunm : env.handlerData.hasRequestBody = true →
      ∃ m, reqMT = some m ∧ m.unmarshal req.requestBody = .ret none)
    (hval : (env.hasRequestValidator && env.handlerData.shouldValidateRequest) = true →
      ∃ s, env.validateRequest req.requestBody = .ret (s, none))
    (hpoll0 : env.shouldContinue 0 = true)
    (hhandle : env.handle = .ret ((hs, none), ro))
    (hpoll1 : env.shouldContinue 1 = false) :
    ∃ tr, afterNegotiationV2 env rm reqMT req t =
        errDoneV2 env req (some rm) 408 .requestTimeout tr ∧
      tr ⊆ t ++ [Phase.bindPhase, Phase.authPhase, Phase.unmarshalPhase,
        Phase.validateRequestPhase, Phase.handlePhase] := by
  rcases ha : env.handlerData.hasAuth with _ | _ <;>
  rcases hrb : env.handlerData.hasRequestBody with _ | _ <;>
  rcases hv : env.hasRequestValidator && env.handlerData.shouldValidateRequest with _ | _ <;>
    (unfold afterNegotiationV2
     simp only [hres, hpath, hquery, authStepV2_none env rm req hauth,
       reqBodyStepV2_none env rm reqMT req hunm hval, ha, hrb, hv, hpoll0, hhandle,
       hpoll1, Bool.not_true, Bool.not_false, if_true, if_false, Bool.false_eq_true,
       Bool.true_eq_false, ite_true, ite_false]
     refine ⟨_, rfl, ?_⟩
     intro q hq
     simp only [List.mem_append, List.mem_cons, List.not_mem_nil, or_false] at hq ⊢
     tauto)

/-- Claim C5 (confirmed): for every request that reaches a checked
cancellation boundary of part_002 with the signal already expired,
`Execute` short-circuits to the request-timeout response (status 408,
rendered through a status-preserving error responder whose payload
marshals to `bs`) without invoking the remaining phases.  Part one: the
boundary before handler invocation (poll 0) — the handler, marshal,
response-validation and ETag phases never run.  Part two: the boundary
after the handler (poll 1) — the marshal, response-validation and ETag
phases never run. -/
theorem claim_c5_timeout_before_handler (env : EnvV2) (req : RequesterState)
    (rm : MimeTypeHandler) (bs : List Nat)
    (hct : env.handlerData.hasRequestBody = true →
      req.contentType ≠ "" ∧
      ∃ m, mimeTypeHandlersGet env.mimeTypeHandlers req.contentType
          env.handlerData.requestMimeTypes = some m ∧
        m.unmarshal req.requestBody = .ret none)
    (hacc : req.accept ≠ "")
    (hrm : mimeTypeHandlersGet env.mimeTypeHandlers req.accept
      env.handlerData.responseMimeTypes = some rm)
    (hres : env.setResources = .ret none)
    (hpath : env.setPathParameters = .ret none)
    (hquery : env.setQueryParameters = .ret none)
    (hauth : env.handlerData.hasAuth = true →
      env.handlerData.authIsAuthorizer = true ∧
      ∃ s, env.authorization = .ret (s, none))
    (hval : (env.hasRequestValidator && env.handlerData.shouldValidateRequest) = true →
      ∃ s, env.validateRequest req.requestBody = .ret (s, none))
    (hpe : (env.handleError 408 .requestTimeout).1 = 408)
    (hms : rm.marshal (.errObj (env.handleError 408 .requestTimeout).2) = .ret (bs, none)) :
    (env.shouldContinue 0 = false →
      ∃ tr, ExecuteV2 env req =
          .ret 408 bs
            (setResponseContentType (setResponseHeader req "X-Request-Id" req.requestId)
              rm.mimeType) tr ∧
        Phase.handlePhase ∉ tr ∧ Phase.marshalPhase ∉ tr ∧
        Phase.validateResponsePhase ∉ tr ∧ Phase.etagPhase ∉ tr) ∧
    (∀ hs ro, env.shouldContinue 0 = true → env.handle = .ret ((hs, none), ro) →
      env.shouldContinue 1 = false →
      ∃ tr, ExecuteV2 env req =
          .ret 408 bs
            (setResponseContentType (setResponseHeader req "X-Request-Id" req.requestId)
              rm.mimeType) tr ∧
        Phase.marshalPhase ∉ tr ∧ Phase.validateResponsePhase ∉ tr ∧
        Phase.etagPhase ∉ tr) := by
  have hafter : ∃ reqMT t0,
      innerV2 env req = afterNegotiationV2 env rm reqMT
        (setResponseContentType (setResponseHeader req "X-Request-Id" req.requestId)
          rm.mimeType) t0 ∧
      (env.handlerData.hasRequestBody = true →
        ∃ m, reqMT = some m ∧
          m.unmarshal (setResponseContentType
            (setResponseHeader req "X-Request-Id" req.requestId) rm.mimeType).requestBody =
            .ret none) ∧
      Phase.handlePhase ∉ t0 ∧ Phase.marshalPhase ∉ t0 ∧
      Phase.validateResponsePhase ∉ t0 ∧ Phase.etagPhase ∉ t0 := by
    by_cases hrb : env.handlerData.hasRequestBody = true
    · obtain ⟨hct1, m, hm, hu⟩ := hct hrb
      exact ⟨some m, [Phase.negotiateRequestMime, Phase.negotiateResponseMime],
        innerV2_eq_afterNegotiation_body env req rm m hrb hct1 hm hacc hrm,
        fun _ => ⟨m, rfl, hu⟩, by decide, by decide, by decide, by decide⟩
    · simp only [Bool.not_eq_true] at hrb
      exact ⟨none, [Phase.negotiateResponseMime],
        innerV2_eq_afterNegotiation_noBody env req rm hrb hacc hrm,
        fun h => absurd h (by simp [hrb]), by decide, by decide, by decide, by decide⟩
  obtain ⟨reqMT, t0, hinner, hunm, h1, h2, h3, h4⟩ := hafter
  constructor
  · intro hpoll
    obtain ⟨tr0, heq, hsub⟩ := afterNegotiationV2_timeout0 env rm reqMT
      (setResponseContentType (setResponseHeader req "X-Request-Id" req.requestId)
        rm.mimeType) t0 hres hpath hquery hauth hunm (fun hv => hval hv) hpoll
    refine ⟨tr0, ?_, ?_, ?_, ?_, ?_⟩
    · unfold ExecuteV2
      rw [hinner, heq]
      unfold errDoneV2 processErrorResponseV2
      simp only [hms]
      rw [hpe]
    · exact notMem_of_subset_append hsub h1 (by decide)
    · exact notMem_of_subset_append hsub h2 (by decide)
    · exact notMem_of_subset_append hsub h3 (by decide)
    · exact notMem_of_subset_append hsub h4 (by decide)
  · intro hs ro hpoll0 hhandle hpoll1
    obtain ⟨tr0, heq, hsub⟩ := afterNegotiationV2_timeout1 env rm reqMT
      (setResponseContentType (setResponseHeader req "X-Request-Id" req.requestId)
        rm.mimeType) t0 hs ro hres hpath hquery hauth hunm (fun hv => hval hv)
      hpoll0 hhandle hpoll1
    refine ⟨tr0, ?_, ?_, ?_, ?_⟩
    · unfold ExecuteV2
      rw [hinner, heq]
      unfold errDoneV2 processErrorResponseV2
      simp only [hms]
      rw [hpe]
    · exact notMem_of_subset_append hsub h2 (by decide)
    · exact notMem_of_subset_append hsub h3 (by decide)
    · exact notMem_of_subset_append hsub h4 (by decide)

/-- Witness for C5 at a concrete input: the expired signal yields 408 and
the handler, marshal, response-validation and ETag phases never run. -/
theorem claim_c5_witness :
    ∃ tr, ExecuteV2 envExpired { accept := "application/json" } =
        .ret 408 [101, 114, 114]
          (setResponseContentType
            (setResponseHeader { accept := "application/json" } "X-Request-Id" "")
            jsonLikeHandler.mimeType) tr ∧
      Phase.handlePhase ∉ tr ∧ Phase.marshalPhase ∉ tr ∧
      Phase.validateResponsePhase ∉ tr ∧ Phase.etagPhase ∉ tr :=
  (claim_c5_timeout_before_handler envExpired { accept := "application/json" }
    jsonLikeHandler [101, 114, 114]
    (fun h => by cases h) (by decide) rfl rfl rfl rfl
    (fun h => by cases h) (fun h => by cases h) rfl rfl).1 rfl

theorem ExecuteV2_recover_ret (env : EnvV2) (req r : RequesterState)
    (rm : MimeTypeHandler) (p : String) (bs : List Nat) (t : List Phase)
    (hinner : innerV2 env req = .panicked p (some rm) r t)
    (hpe : (env.handleError 500 (.wrap (.recovered p) .internalServerError)).1 = 500)
    (hms : rm.marshal
        (.errObj (env.handleError 500 (.wrap (.recovered p) .internalServerError)).2) =
      .ret (bs, none)) :
    ExecuteV2 env req = .ret 500 bs r t := by
  unfold ExecuteV2
  rw [hinner]
  unfold processErrorResponseV2
  simp only [hms]
  rw [hpe]

theorem afterNegotiationV2_resourcesPanicked (env : EnvV2) (rm : MimeTypeHandler)
    (reqMT : Option MimeTypeHandler) (req : RequesterState) (t : List Phase) (p : String)
    (h : env.setResources = .panicked p) :
    afterNegotiationV2 env rm reqMT req t =
      .panicked p (some rm) req (t ++ [Phase.bindPhase]) := by
  unfold afterNegotiationV2
  simp only [h]

theorem afterNegotiationV2_pathParamsPanicked (env : EnvV2) (rm : MimeTypeHandler)
    (reqMT : Option MimeTypeHandler) (req : RequesterState) (t : List Phase) (p : String)
    (hres : env.setResources = .ret none)
    (h : env.setPathParameters = .panicked p) :
    afterNegotiationV2 env rm reqMT req t =
      .panicked p (some rm) req (t ++ [Phase.bindPhase]) := by
  unfold afterNegotiationV2
  simp only [hres, h]

theorem afterNegotiationV2_queryParamsPanicked (env : EnvV2) (rm : MimeTypeHandler)
    (reqMT : Option MimeTypeHandler) (req : RequesterState) (t : List Phase) (p : String)
    (hres : env.setResources = .ret none)
    (hpath : env.setPathParameters = .ret none)
    (h : env.setQueryParameters = .panicked p) :
    afterNegotiationV2 env rm reqMT req t =
      .panicked p (some rm) req (t ++ [Phase.bindPhase]) := by
  unfold afterNegotiationV2
  simp only [hres, hpath, h]

theorem afterNegotiationV2_authPanicked (env : EnvV2) (rm : MimeTypeHandler)
    (reqMT : Option MimeTypeHandler) (req : RequesterState) (t : List Phase) (p : String)
    (hres : env.setResources = .ret none)
    (hpath : env.setPathParameters = .ret none)
    (hquery : env.setQueryParameters = .ret none)
    (ha : env.handlerData.hasAuth = true)
    (hia : env.handlerData.authIsAuthorizer = true)
    (h : env.authorization = .panicked p) :
    afterNegotiationV2 env rm reqMT req t =
      .panicked p (some rm) req (t ++ [Phase.bindPhase] ++ [Phase.authPhase]) := by
  unfold afterNegotiationV2 authStepV2
  simp [hres, hpath, hquery, ha, hia, h]

theorem afterNegotiationV2_unmarshalPanicked (env : EnvV2) (rm m : MimeTypeHandler)
    (req : RequesterState) (t : List Phase) (p : String)
    (hres : env.setResources = .ret none)
    (hpath : env.setPathParameters = .ret none)
    (hquery : env.setQueryParameters = .ret none)
    (hauth : env.handlerData.hasAuth = true →
      env.handlerData.authIsAuthorizer = true ∧
      ∃ s, env.authorization = .ret (s, none))
    (hrb : env.handlerData.hasRequestBody = true)
    (h : m.unmarshal req.requestBody = .panicked p) :
    ∃ tr, afterNegotiationV2 env rm (some m) req t =
      .panicked p (some rm) req tr := by
  rcases ha : env.handlerData.hasAuth with _ | _ <;>
    (unfold afterNegotiationV2 reqBodyStepV2
     simp only [hres, hpath, hquery, authStepV2_none env rm req hauth, ha, hrb, h,
       Bool.false_eq_true, Bool.true_eq_false, if_true, if_false, ite_true, ite_false]
     exact ⟨_, rfl⟩)

theorem afterNegotiationV2_requestValidatorPanicked (env : EnvV2) (rm m : MimeTypeHandler)
    (req : RequesterState) (t : List Phase) (p : String)
    (hres : env.setResources = .ret none)
    (hpath : env.setPathParameters = .ret none)
    (hquery : env.setQueryParameters = .ret none)
    (hauth : env.handlerData.hasAuth = true →
      env.handlerData.authIsAuthorizer = true ∧
      ∃ s, env.authorization = .ret (s, none))
    (hrb : env.handlerData.hasRequestBody = true)
    (hu : m.unmarshal req.requestBody = .ret none)
    (hv : (env.hasRequestValidator && env.handlerData.shouldValidateRequest) = true)
    (h : env.validateRequest req.requestBody = .panicked p) :
    ∃ tr, afterNegotiationV2 env rm (some m) req t =
      .panicked p (some rm) req tr := by
  rcases ha : env.handlerData.hasAuth with _ | _ <;>
    (unfold afterNegotiationV2 reqBodyStepV2
     simp only [hres, hpath, hquery, authStepV2_none env rm req hauth, ha, hrb, hu, hv, h,
       Bool.false_eq_true, Bool.true_eq_false, if_true, if_false, ite_true, ite_false]
     exact ⟨_, rfl⟩)

theorem afterNegotiationV2_marshalPanicked (env : EnvV2) (rm : MimeTypeHandler)
    (reqMT : Option MimeTypeHandler) (req : RequesterState) (t : List Phase) (p : String)
    (hs : Int) (ro : RespObj)
    (hres : env.setResources = .ret none)
    (hpath : env.setPathParameters = .ret none)
    (hquery : env.setQueryParameters = .ret none)
    (hauth : env.handlerData.hasAuth = true →
      env.handlerData.authIsAuthorizer = true ∧
      ∃ s, env.authorization = .ret (s, none))
    (hunm : env.handlerData.hasRequestBody = true →
      ∃ m, reqMT = some m ∧ m.unmarshal req.requestBody = .ret none)
    (hval : (env.hasRequestValidator && env.handlerData.shouldValidateRequest) = true →
      ∃ s, env.validateRequest req.requestBody = .ret (s, none))
    (hpoll0 : env.shouldContinue 0 = true)
    (hhandle : env.handle = .ret ((hs, none), ro))
    (hpoll1 : env.shouldContinue 1 = true)
    (hrespb : env.handlerData.hasResponseBody = true)
    (h : rm.marshal (.respObj ro) = .panicked p) :
    ∃ tr, afterNegotiationV2 env rm reqMT req t =
      .panicked p (some rm) (setResponseContentType req rm.mimeType) tr := by
  rcases ha : env.handlerData.hasAuth with _ | _ <;>
  rcases hrb : env.handlerData.hasRequestBody with _ | _ <;>
  rcases hv : env.hasRequestValidator && env.handlerData.shouldValidateRequest with _ | _ <;>
    (unfold afterNegotiationV2 respStepV2
     simp only [hres, hpath, hquery, authStepV2_none env rm req hauth,
       reqBodyStepV2_none env rm reqMT req hunm hval, ha, hrb, hv, hpoll0, hhandle,
       hpoll1, hrespb, h, Bool.not_true, Bool.not_false, Bool.false_eq_true,
       Bool.true_eq_false, if_true, if_false, ite_true, ite_false]
     exact ⟨_, rfl⟩)

theorem afterNegotiationV2_responseValidatorPanicked (env : EnvV2) (rm : MimeTypeHandler)
    (reqMT : Option MimeTypeHandler) (req : RequesterState) (t : List Phase) (p : String)
    (hs : Int) (ro : RespObj) (bsr : List Nat)
    (hres : env.setResources = .ret none)
    (hpath : env.setPathParameters = .ret none)
    (hquery : env.setQueryParameters = .ret none)
    (hauth : env.handlerData.hasAuth = true →
      env.handlerData.authIsAuthorizer = true ∧
      ∃ s, env.authorization = .ret (s, none))
    (hunm : env.handlerData.hasRequestBody = true →
      ∃ m, reqMT = some m ∧ m.unmarshal req.requestBody = .ret none)
    (hval : (env.hasRequestValidator && env.handlerData.shouldValidateRequest) = true →
      ∃ s, env.validateRequest req.requestBody = .ret (s, none))
    (hpoll0 : env.shouldContinue 0 = true)
    (hhandle : env.handle = .ret ((hs, none), ro))
    (hpoll1 : env.shouldContinue 1 = true)
    (hrespb : env.handlerData.hasResponseBody = true)
    (hmok : rm.marshal (.respObj ro) = .ret (bsr, none))
    (hnn : ¬(bsr = nullBytes))
    (hvr : (env.hasResponseValidator && env.handlerData.shouldValidateResponse) = true)
    (h : env.validateResponse hs bsr = .panicked p) :
    ∃ tr, afterNegotiationV2 env rm reqMT req t =
      .panicked p (some rm) (setResponseContentType req rm.mimeType) tr := by
  rcases ha : env.handlerData.hasAuth with _ | _ <;>
  rcases hrb : env.handlerData.hasRequestBody with _ | _ <;>
  rcases hv : env.hasRequestValidator && env.handlerData.shouldValidateRequest with _ | _ <;>
    (unfold afterNegotiationV2 respStepV2 valStepV2
     simp only [hres, hpath, hquery, authStepV2_none env rm req hauth,
       reqBodyStepV2_none env rm reqMT req hunm hval, ha, hrb, hv, hpoll0, hhandle,
       hpoll1, hrespb, hmok, hvr, h, if_neg hnn, Bool.not_true, Bool.not_false,
       Bool.false_eq_true, Bool.true_eq_false, if_true, if_false, ite_true, ite_false]
     exact ⟨_, rfl⟩)

/-- Claim C4 (confirmed): for every request in which any phase of the
pipeline aborts with a panic, `Execute` catches the abort at its single
top-level recovery boundary, converts it to
`errors.Wrap(errors.Recover(p), ErrInternalServerError)`, and returns a
500 status with the error responder's rendering `bs` of that converted
error — it never propagates the panic, and the raw payload reaches the
response only through that documented conversion.  One clause per
collaborator call site of the part_002 pipeline body: resource binding,
path-parameter binding, query-parameter binding, authorization,
request-body decode, request validation, the user handler, response-body
marshal, and response validation — each clause assuming only that the
phases before its own abort site completed, which is the claim's own
precondition of reaching that phase. -/
theorem claim_c4_panic_recovery (env : EnvV2) (req : RequesterState)
    (rm : MimeTypeHandler) (bs : List Nat) (p : String)
    (hct : env.handlerData.hasRequestBody = true →
      req.contentType ≠ "" ∧
      (mimeTypeHandlersGet env.mimeTypeHandlers req.contentType
        env.handlerData.requestMimeTypes).isSome)
    (hacc : req.accept ≠ "")
    (hrm : mimeTypeHandlersGet env.mimeTypeHandlers req.accept
      env.handlerData.responseMimeTypes = some rm)
    (hpe : (env.handleError 500 (.wrap (.recovered p) .internalServerError)).1 = 500)
    (hms : rm.marshal
        (.errObj (env.handleError 500 (.wrap (.recovered p) .internalServerError)).2) =
      .ret (bs, none)) :
    (env.setResources = .panicked p →
      ∃ tr, ExecuteV2 env req = .ret 500 bs
        (setResponseContentType (setResponseHeader req "X-Request-Id" req.requestId)
          rm.mimeType) tr) ∧
    (env.setResources = .ret none → env.setPathParameters = .panicked p →
      ∃ tr, ExecuteV2 env req = .ret 500 bs
        (setResponseContentType (setResponseHeader req "X-Request-Id" req.requestId)
          rm.mimeType) tr) ∧
    (env.setResources = .ret none → env.setPathParameters = .ret none →
      env.setQueryParameters = .panicked p →
      ∃ tr, ExecuteV2 env req = .ret 500 bs
        (setResponseContentType (setResponseHeader req "X-Request-Id" req.requestId)
          rm.mimeType) tr) ∧
    (env.setResources = .ret none → env.setPathParameters = .ret none →
      env.setQueryParameters = .ret none →
      env.handlerData.hasAuth = true → env.handlerData.authIsAuthorizer = true →
      env.authorization = .panicked p →
      ∃ tr, ExecuteV2 env req = .ret 500 bs
        (setResponseContentType (setResponseHeader req "X-Request-Id" req.requestId)
          rm.mimeType) tr) ∧
    (env.setResources = .ret none → env.setPathParameters = .ret none →
      env.setQueryParameters = .ret none →
      (env.handlerData.hasAuth = true →
        env.handlerData.authIsAuthorizer = true ∧
        ∃ s, env.authorization = .ret (s, none)) →
      env.handlerData.hasRequestBody = true →
      ∀ m, mimeTypeHandlersGet env.mimeTypeHandlers req.contentType
          env.handlerData.requestMimeTypes = some m →
        m.unmarshal req.requestBody = .panicked p →
      ∃ tr, ExecuteV2 env req = .ret 500 bs
        (setResponseContentType (setResponseHeader req "X-Request-Id" req.requestId)
          rm.mimeType) tr) ∧
    (env.setResources = .ret none → env.setPathParameters = .ret none →
      env.setQueryParameters = .ret none →
      (env.handlerData.hasAuth = true →
        env.handlerData.authIsAuthorizer = true ∧
        ∃ s, env.authorization = .ret (s, none)) →
      env.handlerData.hasRequestBody = true →
      ∀ m, mimeTypeHandlersGet env.mimeTypeHandlers req.contentType
          env.handlerData.requestMimeTypes = some m →
        m.unmarshal req.requestBody = .ret none →
      (env.hasRequestValidator && env.handlerData.shouldValidateRequest) = true →
      env.validateRequest req.requestBody = .panicked p →
      ∃ tr, ExecuteV2 env req = .ret 500 bs
        (setResponseContentType (setResponseHeader req "X-Request-Id" req.requestId)
          rm.mimeType) tr) ∧
    (env.setResources = .ret none → env.setPathParameters = .ret none →
      env.setQueryParameters = .ret none →
      (env.handlerData.hasAuth = true →
        env.handlerData.authIsAuthorizer = true ∧
        ∃ s, env.authorization = .ret (s, none)) →
      (env.handlerData.hasRequestBody = true →
        ∀ m, mimeTypeHandlersGet env.mimeTypeHandlers req.contentType
            env.handlerData.requestMimeTypes = some m →
          m.unmarshal req.requestBody = .ret none) →
      ((env.hasRequestValidator && env.handlerData.shouldValidateRequest) = true →
        ∃ s, env.validateRequest req.requestBody = .ret (s, none)) →
      env.shouldContinue 0 = true →
      env.handle = .panicked p →
      ∃ tr, ExecuteV2 env req = .ret 500 bs
        (setResponseContentType (setResponseHeader req "X-Request-Id" req.requestId)
          rm.mimeType) tr) ∧
    (env.setResources = .ret none → env.setPathParameters = .ret none →
      env.setQueryParameters = .ret none →
      (env.handlerData.hasAuth = true →
        env.handlerData.authIsAuthorizer = true ∧
        ∃ s, env.authorization = .ret (s, none)) →
      (env.handlerData.hasRequestBody = true →
        ∀ m, mimeTypeHandlersGet env.mimeTypeHandlers req.contentType
            env.handlerData.requestMimeTypes = some m →
          m.unmarshal req.requestBody = .ret none) →
      ((env.hasRequestValidator && env.handlerData.shouldValidateRequest) = true →
        ∃ s, env.validateRequest req.requestBody = .ret (s, none)) →
      env.shouldContinue 0 = true →
      ∀ hs ro, env.handle = .ret ((hs, none), ro) →
      env.shouldContinue 1 = true →
      env.handlerData.hasResponseBody = true →
      rm.marshal (.respObj ro) = .panicked p →
      ∃ tr, ExecuteV2 env req = .ret 500 bs
        (setResponseContentType (setResponseHeader req "X-Request-Id" req.requestId)
          rm.mimeType) tr) ∧
    (env.setResources = .ret none → env.setPathParameters = .ret none →
      env.setQueryParameters = .ret none →
      (env.handlerData.hasAuth = true →
        env.handlerData.authIsAuthorizer = true ∧
        ∃ s, env.authorization = .ret (s, none)) →
      (env.handlerData.hasRequestBody = true →
        ∀ m, mimeTypeHandlersGet env.mimeTypeHandlers req.contentType
            env.handlerData.requestMimeTypes = some m →
          m.unmarshal req.requestBody = .ret none) →
      ((env.hasRequestValidator && env.handlerData.shouldValidateRequest) = true →
        ∃ s, env.validateRequest req.requestBody = .ret (s, none)) →
      env.shouldContinue 0 = true →
      ∀ hs ro, env.handle = .ret ((hs, none), ro) →
      env.shouldContinue 1 = true →
      env.handlerData.hasResponseBody = true →
      ∀ bsr, rm.marshal (.respObj ro) = .ret (bsr, none) →
      ¬(bsr = nullBytes) →
      (env.hasResponseValidator && env.handlerData.shouldValidateResponse) = true →
      env.validateResponse hs bsr = .panicked p →
      ∃ tr, ExecuteV2 env req = .ret 500 bs
        (setResponseContentType (setResponseHeader req "X-Request-Id" req.requestId)
          rm.mimeType) tr) := by
  have hafter : ∃ reqMT t0,
      innerV2 env req = afterNegotiationV2 env rm reqMT
        (setResponseContentType (setResponseHeader req "X-Request-Id" req.requestId)
          rm.mimeType) t0 ∧
      (env.handlerData.hasRequestBody = true →
        ∃ m, reqMT = some m ∧
          mimeTypeHandlersGet env.mimeTypeHandlers req.contentType
            env.handlerData.requestMimeTypes = some m) := by
    by_cases hrb : env.handlerData.hasRequestBody = true
    · obtain ⟨hct1, hsome⟩ := hct hrb
      obtain ⟨m, hm⟩ := Option.isSome_iff_exists.1 hsome
      exact ⟨some m, [Phase.negotiateRequestMime, Phase.negotiateResponseMime],
        innerV2_eq_afterNegotiation_body env req rm m hrb hct1 hm hacc hrm,
        fun _ => ⟨m, rfl, hm⟩⟩
    · simp only [Bool.not_eq_true] at hrb
      exact ⟨none, [Phase.negotiateResponseMime],
        innerV2_eq_afterNegotiation_noBody env req rm hrb hacc hrm,
        fun h => absurd h (by simp [hrb])⟩
  obtain ⟨reqMT, t0, hinner, hlink⟩ := hafter
  refine ⟨?_, ?_, ?_, ?_, ?_, ?_, ?_, ?_, ?_⟩
  · intro h
    exact ⟨_, ExecuteV2_recover_ret env req _ rm p bs _
      (hinner.trans (afterNegotiationV2_resourcesPanicked env rm reqMT _ t0 p h))
      hpe hms⟩
  · intro hres h
    exact ⟨_, ExecuteV2_recover_ret env req _ rm p bs _
      (hinner.trans (afterNegotiationV2_pathParamsPanicked env rm reqMT _ t0 p hres h))
      hpe hms⟩
  · intro hres hpath h
    exact ⟨_, ExecuteV2_recover_ret env req _ rm p bs _
      (hinner.trans
        (afterNegotiationV2_queryParamsPanicked env rm reqMT _ t0 p hres hpath h))
      hpe hms⟩
  · intro hres hpath hquery ha hia h
    exact ⟨_, ExecuteV2_recover_ret env req _ rm p bs _
      (hinner.trans
        (afterNegotiationV2_authPanicked env rm reqMT _ t0 p hres hpath hquery ha hia h))
      hpe hms⟩
  · intro hres hpath hquery hauthc hrb m hmGet hump
    obtain ⟨m', hmEq, hmGet'⟩ := hlink hrb
    have hmm : m' = m := Option.some.inj (hmGet'.symm.trans hmGet)
    subst hmm
    subst hmEq
    obtain ⟨tr, htr⟩ := afterNegotiationV2_unmarshalPanicked env rm m'
      (setResponseContentType (setResponseHeader req "X-Request-Id" req.requestId)
        rm.mimeType) t0 p hres hpath hquery hauthc hrb hump
    exact ⟨tr, ExecuteV2_recover_ret env req _ rm p bs _ (hinner.trans htr) hpe hms⟩
  · intro hres hpath hquery hauthc hrb m hmGet humo hv hvp
    obtain ⟨m', hmEq, hmGet'⟩ := hlink hrb
    have hmm : m' = m := Option.some.inj (hmGet'.symm.trans hmGet)
    subst hmm
    subst hmEq
    obtain ⟨tr, htr⟩ := afterNegotiationV2_requestValidatorPanicked env rm m'
      (setResponseContentType (setResponseHeader req "X-Request-Id" req.requestId)
        rm.mimeType) t0 p hres hpath hquery hauthc hrb humo hv hvp
    exact ⟨tr, ExecuteV2_recover_ret env req _ rm p bs _ (hinner.trans htr) hpe hms⟩
  · intro hres hpath hquery hauthc hclean hvalc hpoll0 hhandle
    have hunm : env.handlerData.hasRequestBody = true →
        ∃ m, reqMT = some m ∧
          m.unmarshal (setResponseContentType
            (setResponseHeader req "X-Request-Id" req.requestId)
            rm.mimeType).requestBody = .ret none := by
      intro hrb
      obtain ⟨m, hmEq, hmGet⟩ := hlink hrb
      exact ⟨m, hmEq, hclean hrb m hmGet⟩
    obtain ⟨tr0, htr, _⟩ := afterNegotiationV2_handlerPanicked env rm reqMT _ t0 p
      hres hpath hquery hauthc hunm (fun hv => hvalc hv) hpoll0 hhandle
    exact ⟨tr0 ++ [Phase.handlePhase],
      ExecuteV2_recover_ret env req _ rm p bs _ (hinner.trans htr) hpe hms⟩
  · intro hres hpath hquery hauthc hclean hvalc hpoll0 hs ro hhandle hpoll1 hrespb hmp
    have hunm : env.handlerData.hasRequestBody = true →
        ∃ m, reqMT = some m ∧
          m.unmarshal (setResponseContentType
            (setResponseHeader req "X-Request-Id" req.requestId)
            rm.mimeType).requestBody = .ret none := by
      intro hrb
      obtain ⟨m, hmEq, hmGet⟩ := hlink hrb
      exact ⟨m, hmEq, hclean hrb m hmGet⟩
    obtain ⟨tr, htr⟩ := afterNegotiationV2_marshalPanicked env rm reqMT _ t0 p hs ro
      hres hpath hquery hauthc hunm (fun hv => hvalc hv) hpoll0 hhandle hpoll1 hrespb hmp
    exact ⟨tr, ExecuteV2_recover_ret env req _ rm p bs _ (hinner.trans htr) hpe hms⟩
  · intro hres hpath hquery hauthc hclean hvalc hpoll0 hs ro hhandle hpoll1 hrespb bsr
      hmok hnn hvr hvp
    have hunm : env.handlerData.hasRequestBody = true →
        ∃ m, reqMT = some m ∧
          m.unmarshal (setResponseContentType
            (setResponseHeader req "X-Request-Id" req.requestId)
            rm.mimeType).requestBody = .ret none := by
      intro hrb
      obtain ⟨m, hmEq, hmGet⟩ := hlink hrb
      exact ⟨m, hmEq, hclean hrb m hmGet⟩
    obtain ⟨tr, htr⟩ := afterNegotiationV2_responseValidatorPanicked env rm reqMT _ t0 p
      hs ro bsr hres hpath hquery hauthc hunm (fun hv => hvalc hv) hpoll0 hhandle hpoll1
      hrespb hmok hnn hvr hvp
    exact ⟨tr, ExecuteV2_recover_ret env req _ rm p bs _ (hinner.trans htr) hpe hms⟩

/-- Witness for C4 at concrete inputs: a panic in the resource-binding
phase and a panic in the user handler each yield the converted 500 error
response. -/
theorem claim_c4_witness :
    (∃ tr, ExecuteV2 envPanicBind { accept := "application/json" } =
        .ret 500 [101, 114, 114]
          (setResponseContentType
            (setResponseHeader { accept := "application/json" } "X-Request-Id" "")
            jsonLikeHandler.mimeType) tr) ∧
    (∃ tr, ExecuteV2 envPanicHandle { accept := "application/json" } =
        .ret 500 [101, 114, 114]
          (setResponseContentType
            (setResponseHeader { accept := "application/json" } "X-Request-Id" "")
            jsonLikeHandler.mimeType) tr) := by
  constructor
  · exact (claim_c4_panic_recovery envPanicBind { accept := "application/json" }
      jsonLikeHandler [101, 114, 114] "boom"
      (fun h => by cases h) (by decide) rfl rfl rfl).1 rfl
  · exact (claim_c4_panic_recovery envPanicHandle { accept := "application/json" }
      jsonLikeHandler [101, 114, 114] "boom"
      (fun h => by cases h) (by decide) rfl rfl rfl).2.2.2.2.2.2.1
      rfl rfl rfl (fun h => by cases h) (fun h => by cases h) (fun h => by cases h)
      rfl rfl

end Spiderweb
